import Mathlib

/-!
# Depth-frame unprojection sample: embedding and verification

Shallow embedding of `src/code/sample/main.cpp`:

* `create_xy_table`, `generate_point_cloud`, `write_point_cloud`,
  `print_body_information` and `main` are translated function by function;
* C `float` is the IEEE-754 binary32 model `F32` below (round to nearest,
  ties to even); `isnan`, `nanf` and `*` are the operations of that model;
* image handles are `k4a_image_t`: dimensions plus a pixel buffer, every read
  and write bounds-checked (`none` is an access outside the buffer);
* image dimensions, loop indices and the point count are natural numbers or
  integers without wrap-around: they are bounded by the number of pixels of an
  image held in memory;
* the conversion `(int)f` is `castInt`, which takes as a parameter what the
  platform yields where C++ leaves the conversion undefined;
* the sensor, calibration and tracking libraries are parameters (`World`), each
  call being given by the value it returns.
-/

namespace K4ASample

/-! ## binary32 -/

/-- A binary32 datum: a NaN, a signed infinity, or the finite number
`(-1)^neg * m * 2^e`. -/
inductive F32 where
  | nan : F32
  | inf (neg : Bool) : F32
  | fin (neg : Bool) (m : Nat) (e : Int) : F32
deriving DecidableEq

/-- Number of binary digits of `n`, by halving at most `fuel` times. -/
def bitLenAux : Nat → Nat → Nat
  | 0, _ => 0
  | fuel + 1, n => if n = 0 then 0 else bitLenAux fuel (n / 2) + 1

/-- Number of binary digits of `n` (`0` for `0`). -/
def bitLen (n : Nat) : Nat := bitLenAux n n

namespace F32

/-- The C library predicate `isnan`. -/
def isnan : F32 → Bool
  | nan => true
  | _ => false

/-- Rounding of the exact value `(-1)^neg * m * 2^e` to binary32: 24 significant
bits, least exponent `-149`, nearest with ties to even, overflow to infinity. -/
def round (neg : Bool) (m : Nat) (e : Int) : F32 :=
  if m = 0 then fin neg 0 0
  else
    let e' := max (e + bitLen m - 24) (-149)
    if e' ≤ e then
      if e + bitLen m > 128 then inf neg else fin neg m e
    else
      let s := (e' - e).toNat
      let q := m / 2 ^ s
      let r := m % 2 ^ s
      let half := 2 ^ (s - 1)
      let q' := if half < r ∨ (r = half ∧ q % 2 = 1) then q + 1 else q
      if e' + bitLen q' > 128 then inf neg else fin neg q' e'

/-- The C `float` product `a * b`. -/
def mul : F32 → F32 → F32
  | nan, _ => nan
  | _, nan => nan
  | inf s, inf t => inf (xor s t)
  | inf s, fin t m _ => if m = 0 then nan else inf (xor s t)
  | fin s m _, inf t => if m = 0 then nan else inf (xor s t)
  | fin s m e, fin t n f => round (xor s t) (m * n) (e + f)

/-- Conversion `(float)n` of a non-negative integer. -/
def ofNat (n : Nat) : F32 := round false n 0

/-- The float literal `1.f`. -/
def one : F32 := fin false 1 0

/-- The real number a datum denotes, when it denotes one. -/
def toRat : F32 → Option ℚ
  | fin s m e => some ((if s then -1 else 1) * (m : ℚ) * (2 : ℚ) ^ e)
  | _ => none

/-- The value with its fractional part discarded (truncation toward zero);
defined for finite data only. -/
def trunc : F32 → Option Int
  | fin s m e =>
    let mag : Nat := if 0 ≤ e then m * 2 ^ e.toNat else m / 2 ^ (-e).toNat
    some (if s then -(mag : Int) else (mag : Int))
  | _ => none

end F32

/-- Least value of the C type `int` (32 bits). -/
def INT_MIN : Int := -2147483648

/-- Greatest value of the C type `int` (32 bits). -/
def INT_MAX : Int := 2147483647

/-- Whether the datum has an integral part that the type `int` can hold. -/
def fitsInt (f : F32) : Bool :=
  match f.trunc with
  | some n => decide (INT_MIN ≤ n ∧ n ≤ INT_MAX)
  | none => false

/-- The conversion `(int)f`: the value truncated toward zero when that fits
`int`. C++ leaves every other conversion (NaN, infinities, too large a
magnitude) undefined; `ub f` is what the platform yields there. -/
def castInt (ub : F32 → Int) (f : F32) : Int :=
  match f.trunc with
  | some n => if INT_MIN ≤ n ∧ n ≤ INT_MAX then n else ub f
  | none => ub f

/-! ## Data model -/

/-- A depth sample (`uint16_t`). -/
abbrev U16 := Fin 65536

/-- Conversion `(float)d` of a depth sample. -/
def F32.ofU16 (d : U16) : F32 := F32.ofNat d.val

/-- The SDK pair of floats (`xy.x`, `xy.y`). -/
structure k4a_float2_t where
  x : F32
  y : F32
deriving DecidableEq

/-- The SDK triple of floats (`xyz.x`, `xyz.y`, `xyz.z`, also `v[0..2]`). -/
structure k4a_float3_t where
  x : F32
  y : F32
  z : F32
deriving DecidableEq

/-- An image: its pixel dimensions and its buffer, one cell per pixel in
row-major order. -/
structure k4a_image_t (α : Type) where
  width_pixels : Nat
  height_pixels : Nat
  buffer : List α
  size_eq : buffer.length = width_pixels * height_pixels

namespace k4a_image_t

/-- Read of `buffer[i]`; `none` outside the buffer. -/
def read {α : Type} (img : k4a_image_t α) (i : Nat) : Option α := img.buffer[i]?

/-- Assignment `buffer[i] = v`; `none` outside the buffer. -/
def write {α : Type} (img : k4a_image_t α) (i : Nat) (v : α) : Option (k4a_image_t α) :=
  if i < img.buffer.length then
    some ⟨img.width_pixels, img.height_pixels, img.buffer.set i v,
      by rw [List.length_set]; exact img.size_eq⟩
  else none

/-- What `k4a_image_create` hands out: a buffer of `width * height` cells. -/
def create {α : Type} (width height : Nat) (fill : α) : k4a_image_t α :=
  ⟨width, height, List.replicate (width * height) fill, by simp⟩

end k4a_image_t

/-- The value `nanf("")` in both components. -/
def nan2 : k4a_float2_t := ⟨F32.nan, F32.nan⟩

/-- The value `nanf("")` in all three components. -/
def nan3 : k4a_float3_t := ⟨F32.nan, F32.nan, F32.nan⟩

/-! ## generate_point_cloud -/

/-- The loop condition of `generate_point_cloud`, with the short-circuit order
of `&&`: the ray table is read only where the depth sample is not zero. -/
def point_valid (depth_data : k4a_image_t U16) (xy_table_data : k4a_image_t k4a_float2_t)
    (i : Nat) : Option Bool :=
  match depth_data.read i with
  | none => none
  | some d =>
    if d ≠ 0 then
      match xy_table_data.read i with
      | none => none
      | some r => some (!r.x.isnan && !r.y.isnan)
    else some false

/-- One iteration of the loop of `generate_point_cloud`, on the pair
(`point_cloud`, `*point_count`). -/
def generate_point_cloud_body (depth_image : k4a_image_t U16)
    (xy_table : k4a_image_t k4a_float2_t)
    (st : k4a_image_t k4a_float3_t × Int) (i : Nat) :
    Option (k4a_image_t k4a_float3_t × Int) :=
  match point_valid depth_image xy_table i with
  | none => none
  | some true =>
    match depth_image.read i, xy_table.read i with
    | some d, some r =>
      match st.1.write i ⟨r.x.mul (F32.ofU16 d), r.y.mul (F32.ofU16 d), F32.ofU16 d⟩ with
      | some pc => some (pc, st.2 + 1)
      | none => none
    | _, _ => none
  | some false =>
    match st.1.write i nan3 with
    | some pc => some (pc, st.2)
    | none => none

/-- The function `generate_point_cloud`: `*point_count = 0`, then the loop over
`i = 0 .. width * height - 1`, the dimensions being those of the depth image.
The result is the point cloud and the count left in `*point_count`. -/
def generate_point_cloud (depth_image : k4a_image_t U16)
    (xy_table : k4a_image_t k4a_float2_t) (point_cloud : k4a_image_t k4a_float3_t)
    (_point_count : Int) : Option (k4a_image_t k4a_float3_t × Int) :=
  let width := depth_image.width_pixels
  let height := depth_image.height_pixels
  (List.range (width * height)).foldlM (generate_point_cloud_body depth_image xy_table)
    (point_cloud, 0)

/-! ## write_point_cloud -/

/-- The row `ss << (int)x << "," << (int)y << "," << (int)z << std::endl`. -/
def point_row (ub : F32 → Int) (p : k4a_float3_t) : String :=
  toString (castInt ub p.x) ++ "," ++ toString (castInt ub p.y) ++ "," ++
    toString (castInt ub p.z) ++ "\n"

/-- The test `isnan(x) || isnan(y) || isnan(z)` of `write_point_cloud`. -/
def has_nan (p : k4a_float3_t) : Bool := p.x.isnan || p.y.isnan || p.z.isnan

/-- One iteration of the loop of `write_point_cloud`, on the string stream. -/
def write_point_cloud_body (ub : F32 → Int) (point_cloud : k4a_image_t k4a_float3_t)
    (ss : String) (i : Nat) : Option String :=
  match point_cloud.read i with
  | none => none
  | some p => if has_nan p then some ss else some (ss ++ point_row ub p)

/-- The function `write_point_cloud`. The result is the content of `image.data`
afterwards: the file is opened truncating (whatever it held is dropped), the
header is written, and the string stream is appended. -/
def write_point_cloud (ub : F32 → Int) (point_cloud : k4a_image_t k4a_float3_t)
    (_point_count : Int) (_image_data : Option String) : Option String :=
  let width := point_cloud.width_pixels
  let height := point_cloud.height_pixels
  let ofs := "" ++ "x,y,z" ++ "\n"
  match (List.range (width * height)).foldlM (write_point_cloud_body ub point_cloud) "" with
  | none => none
  | some ss => some (ofs ++ ss)

/-! ## print_body_information -/

/-- A joint: its position and the numeric code of its confidence level. -/
structure k4abt_joint_t where
  position : k4a_float3_t
  confidence_level : Int

/-- A skeleton: the array `joints[K4ABT_JOINT_COUNT]`. -/
structure k4abt_skeleton_t (K4ABT_JOINT_COUNT : Nat) where
  joints : Fin K4ABT_JOINT_COUNT → k4abt_joint_t

/-- A tracked body. -/
structure k4abt_body_t (K4ABT_JOINT_COUNT : Nat) where
  id : Nat
  skeleton : k4abt_skeleton_t K4ABT_JOINT_COUNT

/-- The row written for joint `i`. -/
def joint_row (ub : F32 → Int) (i : Nat) (joint : k4abt_joint_t) : String :=
  toString i ++ "," ++ toString (castInt ub joint.position.x) ++ "," ++
    toString (castInt ub joint.position.y) ++ "," ++
    toString (castInt ub joint.position.z) ++ "," ++
    toString joint.confidence_level ++ "\n"

/-- The function `print_body_information`. The result is the content of
`joint.data` afterwards. -/
def print_body_information {K4ABT_JOINT_COUNT : Nat} (ub : F32 → Int)
    (body : k4abt_body_t K4ABT_JOINT_COUNT) (_joint_data : Option String) : String :=
  let ofs := "" ++ "joint_id,x,y,z,confidence" ++ "\n"
  let ss := (List.finRange K4ABT_JOINT_COUNT).foldl
    (fun ss i => ss ++ joint_row ub i.val (body.skeleton.joints i)) ""
  ofs ++ ss

/-! ## create_xy_table -/

/-- The SDK camera selector. -/
inductive k4a_calibration_type_t where
  | K4A_CALIBRATION_TYPE_DEPTH
  | K4A_CALIBRATION_TYPE_COLOR
deriving DecidableEq

/-- A calibration: the depth camera resolution; `handle` stands for the
intrinsics, which only the SDK reads. -/
structure k4a_calibration_t where
  resolution_width : Nat
  resolution_height : Nat
  handle : Nat

/-- Type of the SDK primitive `k4a_calibration_2d_to_3d`: calibration, pixel,
depth, source camera, target camera; it yields `ray` and `valid`. The source
discards the result code of the call, so the primitive is taken to set both
outputs at every call. -/
abbrev Unproject :=
  k4a_calibration_t → k4a_float2_t → F32 → k4a_calibration_type_t →
    k4a_calibration_type_t → k4a_float3_t × Int

/-- Body of the inner loop of `create_xy_table`, on the pair (`idx`, table). -/
def create_xy_table_cell (k4a_calibration_2d_to_3d : Unproject)
    (calibration : k4a_calibration_t) (y : Nat)
    (st : Nat × k4a_image_t k4a_float2_t) (x : Nat) :
    Option (Nat × k4a_image_t k4a_float2_t) :=
  let p : k4a_float2_t := ⟨F32.ofNat x, F32.ofNat y⟩
  let out := k4a_calibration_2d_to_3d calibration p F32.one
    k4a_calibration_type_t.K4A_CALIBRATION_TYPE_DEPTH
    k4a_calibration_type_t.K4A_CALIBRATION_TYPE_DEPTH
  let ray := out.1
  let valid := out.2
  let cell : k4a_float2_t := if valid ≠ 0 then ⟨ray.x, ray.y⟩ else ⟨F32.nan, F32.nan⟩
  match st.2.write st.1 cell with
  | some table => some (st.1 + 1, table)
  | none => none

/-- Body of the outer loop of `create_xy_table`: the inner loop over `x`. -/
def create_xy_table_row (k4a_calibration_2d_to_3d : Unproject)
    (calibration : k4a_calibration_t) (width : Nat)
    (st : Nat × k4a_image_t k4a_float2_t) (y : Nat) :
    Option (Nat × k4a_image_t k4a_float2_t) :=
  (List.range width).foldlM (create_xy_table_cell k4a_calibration_2d_to_3d calibration y) st

/-- The function `create_xy_table`. -/
def create_xy_table (k4a_calibration_2d_to_3d : Unproject)
    (calibration : k4a_calibration_t) (xy_table : k4a_image_t k4a_float2_t) :
    Option (k4a_image_t k4a_float2_t) :=
  let width := calibration.resolution_width
  let height := calibration.resolution_height
  match (List.range height).foldlM
      (create_xy_table_row k4a_calibration_2d_to_3d calibration width) (0, xy_table) with
  | some st => some st.2
  | none => none

/-! ## main -/

/-- The SDK result of a bounded wait. -/
inductive k4a_wait_result_t where
  | K4A_WAIT_RESULT_SUCCEEDED
  | K4A_WAIT_RESULT_FAILED
  | K4A_WAIT_RESULT_TIMEOUT
deriving DecidableEq

/-- The three image handles of `main`. -/
inductive ImageVar where
  | depth_image
  | xy_table
  | point_cloud
deriving DecidableEq

/-- The calls `main` makes, as recorded in the trace of a run. -/
inductive Call where
  | printf (text : String)
  | cout (text : String)
  | k4a_device_open
  | k4a_device_get_calibration
  | k4a_image_create (img : ImageVar)
  | create_xy_table
  | k4a_device_start_cameras
  | k4a_device_get_capture (timeout_in_ms : Int)
  | k4a_capture_get_depth_image
  | tracker_create
  | enqueue_capture
  | pop_result
  | tracker_shutdown
  | get_body (index : Nat)
  | print_body_information
  | generate_point_cloud
  | write_point_cloud
  | k4a_image_release (img : ImageVar)
  | k4a_device_close
deriving DecidableEq

/-- The two files of the working directory (`none`: the file does not exist). -/
structure Files where
  joint_data : Option String
  image_data : Option String
deriving DecidableEq

/-- What the external collaborators answer during one run of `main`. -/
structure World (K4ABT_JOINT_COUNT : Nat) where
  /-- Result of `k4a_device_get_installed_count()` -/
  installed_count : Nat
  /-- Whether `k4a_device_open` returns `K4A_RESULT_SUCCEEDED` -/
  device_open : Bool
  /-- Result of `k4a_device_get_calibration`: the calibration, `none` when it fails -/
  get_calibration : Option k4a_calibration_t
  /-- The primitive `k4a_calibration_2d_to_3d` -/
  k4a_calibration_2d_to_3d : Unproject
  /-- Whether `k4a_device_start_cameras` returns `K4A_RESULT_SUCCEEDED` -/
  start_cameras : Bool
  /-- Result of `k4a_device_get_capture` -/
  get_capture : k4a_wait_result_t
  /-- Result of `k4a_capture_get_depth_image`: the image, `none` for a null handle -/
  get_depth_image : Option (k4a_image_t U16)
  /-- Result of `tracker.enqueue_capture` -/
  enqueue_capture : Bool
  /-- Result of `tracker.pop_result`: `none` for a null frame, else the frame, given by
  the body its `get_body(0)` returns -/
  pop_result : Option (k4abt_body_t K4ABT_JOINT_COUNT)
  /-- Content of the cells of a buffer `k4a_image_create` has just allocated -/
  fresh2 : k4a_float2_t
  /-- Content of the cells of a buffer `k4a_image_create` has just allocated -/
  fresh3 : k4a_float3_t
  /-- What `(int)f` yields where C++ leaves it undefined -/
  ub : F32 → Int

/-- The outcome of a run of `main`. -/
structure Run where
  returnCode : Int
  files : Files
  trace : List Call
deriving DecidableEq

/-- The end of `main` after the `while` block: the device is closed when the
handle is not null, and `returnCode` is returned. -/
def main_exit (device : Bool) (returnCode : Int) (files : Files) (trace : List Call) : Run :=
  ⟨returnCode, files, if device then trace ++ [Call.k4a_device_close] else trace⟩

/-- The timeout of the capture wait. -/
def TIMEOUT_IN_MS : Int := 1000

/-- The function `main`; `none` when a buffer is accessed outside its bounds. -/
def main {K4ABT_JOINT_COUNT : Nat} (w : World K4ABT_JOINT_COUNT) (files : Files) :
    Option Run :=
  let returnCode : Int := 1
  if w.installed_count = 0 then
    some ⟨0, files, [Call.printf "No K4A devices found\n"]⟩
  else if !w.device_open then
    some (main_exit false returnCode files
      [Call.k4a_device_open, Call.printf "Failed to open device\n"])
  else
    let t1 := [Call.k4a_device_open, Call.k4a_device_get_calibration]
    match w.get_calibration with
    | none => some (main_exit true returnCode files (t1 ++ [Call.printf "Failed to get calibration\n"]))
    | some calibration =>
      let xy_table0 : k4a_image_t k4a_float2_t :=
        k4a_image_t.create calibration.resolution_width calibration.resolution_height w.fresh2
      match create_xy_table w.k4a_calibration_2d_to_3d calibration xy_table0 with
      | none => none
      | some xy_table =>
        let point_cloud : k4a_image_t k4a_float3_t :=
          k4a_image_t.create calibration.resolution_width calibration.resolution_height w.fresh3
        let t2 := t1 ++ [Call.k4a_image_create ImageVar.xy_table, Call.create_xy_table,
          Call.k4a_image_create ImageVar.point_cloud, Call.k4a_device_start_cameras]
        if !w.start_cameras then
          some (main_exit true returnCode files (t2 ++ [Call.printf "Failed to start cameras\n"]))
        else
          let t3 := t2 ++ [Call.k4a_device_get_capture TIMEOUT_IN_MS]
          if w.get_capture ≠ k4a_wait_result_t.K4A_WAIT_RESULT_SUCCEEDED then
            some (main_exit true returnCode files (t3 ++ [Call.printf "capture error"]))
          else
            let depth_image := w.get_depth_image
            let t4 := t3 ++ [Call.k4a_capture_get_depth_image, Call.tracker_create,
              Call.enqueue_capture]
            if !w.enqueue_capture then
              some (main_exit true returnCode files (t4 ++ [Call.cout "Error! tracking failed\n"]))
            else
              let t5 := t4 ++ [Call.pop_result, Call.tracker_shutdown]
              match w.pop_result with
              | none =>
                some (main_exit true returnCode files
                  (t5 ++ [Call.cout "Error! Pop body frame result time out!\n"]))
              | some body =>
                let joint_data := print_body_information w.ub body files.joint_data
                let files1 : Files := ⟨some joint_data, files.image_data⟩
                let t6 := t5 ++ [Call.get_body 0, Call.print_body_information,
                  Call.printf "body detected\n"]
                match depth_image with
                | none =>
                  some (main_exit true 1 files1
                    (t6 ++ [Call.printf "Failed to get depth image from capture\n"]))
                | some depth_image =>
                  match generate_point_cloud depth_image xy_table point_cloud 0 with
                  | none => none
                  | some (point_cloud1, point_count) =>
                    match write_point_cloud w.ub point_cloud1 point_count files1.image_data with
                    | none => none
                    | some image_data =>
                      some (main_exit true 0 ⟨files1.joint_data, some image_data⟩
                        (t6 ++ [Call.generate_point_cloud, Call.write_point_cloud,
                          Call.k4a_image_release ImageVar.depth_image,
                          Call.k4a_image_release ImageVar.xy_table,
                          Call.k4a_image_release ImageVar.point_cloud]))

/-! ## Specification-side definitions -/

/-- Whether cell `i` satisfies both validity conditions: the depth sample is
not zero and neither component of the ray is NaN. -/
def cell_valid (depth_image : k4a_image_t U16) (xy_table : k4a_image_t k4a_float2_t)
    (i : Nat) : Bool :=
  match depth_image.read i, xy_table.read i with
  | some d, some r => decide (d ≠ 0) && !r.x.isnan && !r.y.isnan
  | _, _ => false

/-- Independent recount: the number of indices below `width * height` whose
cell satisfies both validity conditions. -/
def valid_recount (depth_image : k4a_image_t U16) (xy_table : k4a_image_t k4a_float2_t) : Nat :=
  ((List.range (depth_image.width_pixels * depth_image.height_pixels)).filter
    (cell_valid depth_image xy_table)).length

/-- The per-pixel rule of the point-cloud generator. -/
def point_rule (d : U16) (r : k4a_float2_t) : k4a_float3_t :=
  if d ≠ 0 ∧ r.x.isnan = false ∧ r.y.isnan = false then
    ⟨r.x.mul (F32.ofU16 d), r.y.mul (F32.ofU16 d), F32.ofU16 d⟩
  else nan3

/-- State of the generator loop after `k` iterations. -/
def GenInv (depth_image : k4a_image_t U16) (xy_table : k4a_image_t k4a_float2_t)
    (point_cloud : k4a_image_t k4a_float3_t) (k : Nat)
    (st : k4a_image_t k4a_float3_t × Int) : Prop :=
  st.1.width_pixels = point_cloud.width_pixels ∧
  st.1.height_pixels = point_cloud.height_pixels ∧
  (∀ i, i < k → ∃ d r, depth_image.read i = some d ∧ xy_table.read i = some r ∧
    st.1.read i = some (point_rule d r)) ∧
  (∀ i, k ≤ i → st.1.read i = point_cloud.read i) ∧
  st.2 = (((List.range k).filter (cell_valid depth_image xy_table)).length : Int)

/-- Number of newline-terminated lines of a text. -/
def line_count (text : String) : Nat := text.data.count '\n'

/-- The spec's line for a valid point: its three coordinates truncated to
integers, comma-separated; there is none when a coordinate has no integral
part (an infinity). -/
def spec_point_row (p : k4a_float3_t) : Option String :=
  match p.x.trunc, p.y.trunc, p.z.trunc with
  | some X, some Y, some Z =>
    some (toString X ++ "," ++ toString Y ++ "," ++ toString Z ++ "\n")
  | _, _, _ => none

/-- The spec's data rows of the point-cloud export, for the pixels in
row-major order: one line per valid point, invalid points skipped. -/
def export_lines : List k4a_float3_t → Option (List String)
  | [] => some []
  | p :: rest =>
    if has_nan p then export_lines rest
    else
      match spec_point_row p, export_lines rest with
      | some line, some lines => some (line :: lines)
      | _, _ => none

/-- The spec's `exportPointCloud`: header row `x,y,z`, then the data rows. -/
def exportPointCloud (frame : k4a_image_t k4a_float3_t) : Option String :=
  match export_lines frame.buffer with
  | some lines => some ("x,y,z\n" ++ String.join lines)
  | none => none

/-! ## Concrete inputs -/

/-- The ray table of the 2x2 scenario: (1,1), invalid, (0.5,0.5), (2,0). -/
def scenario_xy_table : k4a_image_t k4a_float2_t :=
  ⟨2, 2, [⟨F32.fin false 1 0, F32.fin false 1 0⟩, nan2,
    ⟨F32.fin false 1 (-1), F32.fin false 1 (-1)⟩, ⟨F32.fin false 1 1, F32.fin false 0 0⟩], rfl⟩

/-- The depth frame of the 2x2 scenario: 100, 100, 0, 50. -/
def scenario_depth_image : k4a_image_t U16 := ⟨2, 2, [100, 100, 0, 50], rfl⟩

/-- A 1x1 frame whose point has `x = +infinity` and no NaN. -/
def inf_frame : k4a_image_t k4a_float3_t :=
  ⟨1, 1, [⟨F32.inf false, F32.fin false 0 0, F32.fin false 1 0⟩], rfl⟩

/-- A 1x1 frame whose point is (3000000000, 0, 1); 3000000000 = 11718750 * 2^8
is a binary32 number. -/
def big_frame : k4a_image_t k4a_float3_t :=
  ⟨1, 1, [⟨F32.fin false 11718750 8, F32.fin false 0 0, F32.fin false 1 0⟩], rfl⟩

/-- What `(int)f` yields on x86-64 where C++ leaves it undefined: the
"integer indefinite" value. -/
def ub_x86 (_ : F32) : Int := INT_MIN

/-- The point cloud of the 2x2 scenario: (100,100,100), invalid, invalid,
(100,0,50). -/
def scenario_frame : k4a_image_t k4a_float3_t :=
  ⟨2, 2, [⟨F32.fin false 100 0, F32.fin false 100 0, F32.fin false 100 0⟩, nan3, nan3,
    ⟨F32.fin false 50 1, F32.fin false 0 0, F32.fin false 50 0⟩], rfl⟩

/-- The cell the ray-table builder stores for pixel (`x`, `y`): the primitive
is queried at that pixel with unit depth, depth camera to depth camera; the
cell is (`ray.x`, `ray.y`) when it reports valid and (NaN, NaN) otherwise. -/
def xy_cell (k4a_calibration_2d_to_3d : Unproject) (calibration : k4a_calibration_t)
    (x y : Nat) : k4a_float2_t :=
  let out := k4a_calibration_2d_to_3d calibration ⟨F32.ofNat x, F32.ofNat y⟩ F32.one
    k4a_calibration_type_t.K4A_CALIBRATION_TYPE_DEPTH
    k4a_calibration_type_t.K4A_CALIBRATION_TYPE_DEPTH
  if out.2 ≠ 0 then ⟨out.1.x, out.1.y⟩ else nan2

/-- State of the loops of `create_xy_table` after `c` cells. -/
def TableInv (k4a_calibration_2d_to_3d : Unproject) (calibration : k4a_calibration_t)
    (xy_table : k4a_image_t k4a_float2_t) (c : Nat)
    (st : Nat × k4a_image_t k4a_float2_t) : Prop :=
  st.1 = c ∧
  st.2.width_pixels = xy_table.width_pixels ∧
  st.2.height_pixels = xy_table.height_pixels ∧
  ∀ j, j < c → st.2.read j = some (xy_cell k4a_calibration_2d_to_3d calibration
    (j % calibration.resolution_width) (j / calibration.resolution_width))

/-- The spec's line for a joint: index, the three coordinates truncated to
integers, the numeric code of the confidence level; there is none when a
coordinate has no integral part (a NaN, an infinity). -/
def spec_joint_row (i : Nat) (joint : k4abt_joint_t) : Option String :=
  match joint.position.x.trunc, joint.position.y.trunc, joint.position.z.trunc with
  | some X, some Y, some Z =>
    some (toString i ++ "," ++ toString X ++ "," ++ toString Y ++ "," ++ toString Z ++ "," ++
      toString joint.confidence_level ++ "\n")
  | _, _, _ => none

/-- All the rows, when every one of them is defined. -/
def collect_rows : List (Option String) → Option (List String)
  | [] => some []
  | none :: _ => none
  | some row :: rest =>
    match collect_rows rest with
    | some rows => some (row :: rows)
    | none => none

/-- The spec's `exportSkeleton`: header row `joint_id,x,y,z,confidence`, then
one row per joint in the order 0..N-1. -/
def exportSkeleton {K4ABT_JOINT_COUNT : Nat} (skeleton : k4abt_skeleton_t K4ABT_JOINT_COUNT) :
    Option String :=
  match collect_rows ((List.finRange K4ABT_JOINT_COUNT).map
      (fun i => spec_joint_row i.val (skeleton.joints i))) with
  | some rows => some ("joint_id,x,y,z,confidence\n" ++ String.join rows)
  | none => none

/-- A body of 32 joints, all with the lowest confidence code 0, joint 0 at
(3000000000, 0, 1) and the others at the origin. -/
def big_body : k4abt_body_t 32 :=
  ⟨0, ⟨fun i => if i.val = 0
    then ⟨⟨F32.fin false 11718750 8, F32.fin false 0 0, F32.fin false 1 0⟩, 0⟩
    else ⟨⟨F32.fin false 0 0, F32.fin false 0 0, F32.fin false 0 0⟩, 0⟩⟩⟩

/-- A body of 32 joints, all with the lowest confidence code 0, joint 0 at
(NaN, 0, 1) and the others at the origin. -/
def nan_body : k4abt_body_t 32 :=
  ⟨0, ⟨fun i => if i.val = 0
    then ⟨⟨F32.nan, F32.fin false 0 0, F32.fin false 1 0⟩, 0⟩
    else ⟨⟨F32.fin false 0 0, F32.fin false 0 0, F32.fin false 0 0⟩, 0⟩⟩⟩

/-- A body of 32 joints, joint `i` at (`i`, `-i`, 1000) millimetres with
confidence code 0. -/
def plain_body : k4abt_body_t 32 :=
  ⟨0, ⟨fun i => ⟨⟨F32.fin false i.val 0, F32.fin true i.val 0, F32.fin false 125 3⟩, 0⟩⟩⟩

/-- A calibration with a 2x2 depth resolution. -/
def scenario_calibration : k4a_calibration_t := ⟨2, 2, 0⟩

/-- An unprojection primitive on the 2x2 grid: the ray through pixel
(`x`, `y`) is (`x`, `y`, 1), and pixel (1, 0) is reported invalid. -/
def scenario_unproject : Unproject :=
  fun _ p _ _ _ =>
    (⟨p.x, p.y, F32.one⟩, if p.x = F32.fin false 1 0 ∧ p.y = F32.fin false 0 0 then 0 else 1)

/-- A world in which every step of the pipeline succeeds. -/
def scenario_world : World 32 where
  installed_count := 1
  device_open := true
  get_calibration := some scenario_calibration
  k4a_calibration_2d_to_3d := scenario_unproject
  start_cameras := true
  get_capture := k4a_wait_result_t.K4A_WAIT_RESULT_SUCCEEDED
  get_depth_image := some scenario_depth_image
  enqueue_capture := true
  pop_result := some plain_body
  fresh2 := nan2
  fresh3 := nan3
  ub := ub_x86

/-- The world of `scenario_world` with the capture wait timing out. -/
def timeout_world : World 32 :=
  { scenario_world with get_capture := k4a_wait_result_t.K4A_WAIT_RESULT_TIMEOUT }

/-- The world of `scenario_world` with a capture that carries no depth image. -/
def no_depth_world : World 32 :=
  { scenario_world with get_depth_image := none }

/-- The files before a run: both present, with earlier content. -/
def old_files : Files := ⟨some "old joints", some "old points"⟩

/-! # Theorems -/

/-! ## Loops -/

/-- A loop over `0 .. n-1` whose body succeeds under an invariant runs to the
end and establishes the invariant at `n`. -/
theorem foldlM_range_inv {σ : Type} (f : σ → Nat → Option σ) (Inv : Nat → σ → Prop)
    (n : Nat) (s0 : σ) (h0 : Inv 0 s0)
    (hstep : ∀ i s, i < n → Inv i s → ∃ s', f s i = some s' ∧ Inv (i + 1) s') :
    ∃ s, (List.range n).foldlM f s0 = some s ∧ Inv n s := by
  suffices h : ∀ k, k ≤ n → ∃ s, (List.range k).foldlM f s0 = some s ∧ Inv k s from
    h n (le_refl n)
  intro k
  induction k with
  | zero => intro _; exact ⟨s0, rfl, h0⟩
  | succ k ih =>
    intro hk
    obtain ⟨s, hs, hinv⟩ := ih (Nat.le_of_succ_le hk)
    obtain ⟨s', hs', hinv'⟩ := hstep k s hk hinv
    refine ⟨s', ?_, hinv'⟩
    rw [List.range_succ, List.foldlM_append, hs]
    simp [hs']

theorem read_some {α : Type} (img : k4a_image_t α) (i : Nat)
    (h : i < img.width_pixels * img.height_pixels) : ∃ v, img.read i = some v := by
  have h' : i < img.buffer.length := by rw [img.size_eq]; exact h
  exact ⟨img.buffer[i], by simp [k4a_image_t.read, h']⟩

theorem write_some {α : Type} (img : k4a_image_t α) (i : Nat) (v : α)
    (h : i < img.width_pixels * img.height_pixels) :
    ∃ img', img.write i v = some img' ∧ img'.width_pixels = img.width_pixels ∧
      img'.height_pixels = img.height_pixels ∧ img'.read i = some v ∧
      ∀ j, j ≠ i → img'.read j = img.read j := by
  have h' : i < img.buffer.length := by rw [img.size_eq]; exact h
  refine ⟨⟨img.width_pixels, img.height_pixels, img.buffer.set i v,
      by rw [List.length_set]; exact img.size_eq⟩, ?_, rfl, rfl, ?_, ?_⟩
  · simp only [k4a_image_t.write, h', if_true]
  · simp [k4a_image_t.read, h']
  · intro j hj
    simp only [k4a_image_t.read]
    rw [List.getElem?_set_ne (Ne.symm hj)]

/-! ## Facts about binary32 -/

theorem bitLenAux_le (fuel : Nat) : ∀ n k : Nat, n ≤ fuel → n < 2 ^ k → bitLenAux fuel n ≤ k := by
  induction fuel with
  | zero => intro n k _ _; simp [bitLenAux]
  | succ fuel ih =>
    intro n k hn hk
    unfold bitLenAux
    by_cases h0 : n = 0
    · simp [h0]
    · simp only [h0, if_false]
      cases k with
      | zero => simp at hk; exact absurd hk h0
      | succ k =>
        have h1 : n / 2 ≤ fuel := by omega
        have h2 : n / 2 < 2 ^ k := by
          rw [pow_succ] at hk
          omega
        have := ih (n / 2) k h1 h2
        omega

theorem bitLen_le (n k : Nat) (h : n < 2 ^ k) : bitLen n ≤ k :=
  bitLenAux_le n n k (le_refl n) h

theorem F32.ofNat_exact (n : Nat) (h : n < 2 ^ 24) : F32.ofNat n = F32.fin false n 0 := by
  unfold F32.ofNat F32.round
  by_cases h0 : n = 0
  · simp [h0]
  · have hb := bitLen_le n 24 h
    have h1 : max ((0 : Int) + (bitLen n : Int) - 24) (-149) ≤ 0 := by omega
    have h2 : ¬ ((0 : Int) + (bitLen n : Int) > 128) := by omega
    simp only [h0, if_false, h1, if_true, h2]

theorem F32.ofU16_eq (d : U16) : F32.ofU16 d = F32.fin false d.val 0 := by
  unfold F32.ofU16
  apply F32.ofNat_exact
  have := d.isLt
  omega

theorem F32.ofU16_toRat (d : U16) : (F32.ofU16 d).toRat = some (d.val : ℚ) := by
  rw [F32.ofU16_eq]
  simp [F32.toRat]

theorem F32.round_isnan (s : Bool) (m : Nat) (e : Int) : (F32.round s m e).isnan = false := by
  unfold F32.round
  simp only []
  split_ifs <;> rfl

theorem F32.mul_ofU16_isnan (a : F32) (d : U16) (ha : a.isnan = false) (hd : d ≠ 0) :
    (a.mul (F32.ofU16 d)).isnan = false := by
  rw [F32.ofU16_eq]
  have hv : d.val ≠ 0 := fun h => hd (Fin.ext h)
  cases a with
  | nan => simp [F32.isnan] at ha
  | inf s => simp [F32.mul, hv, F32.isnan]
  | fin s m e => simp only [F32.mul]; exact F32.round_isnan _ _ _

theorem F32.ofU16_isnan (d : U16) : (F32.ofU16 d).isnan = false := by
  rw [F32.ofU16_eq]; rfl

theorem castInt_of_fits (ub : F32 → Int) (f : F32) (h : fitsInt f = true) :
    f.trunc = some (castInt ub f) := by
  unfold fitsInt at h
  unfold castInt
  cases ht : f.trunc with
  | none => simp [ht] at h
  | some n =>
    simp only [ht, decide_eq_true_eq] at h
    simp [h]

/-! ## generate_point_cloud: the loop invariant -/

theorem generate_point_cloud_body_inv (depth_image : k4a_image_t U16)
    (xy_table : k4a_image_t k4a_float2_t) (point_cloud : k4a_image_t k4a_float3_t)
    (hx : xy_table.width_pixels * xy_table.height_pixels =
      depth_image.width_pixels * depth_image.height_pixels)
    (hp : point_cloud.width_pixels * point_cloud.height_pixels =
      depth_image.width_pixels * depth_image.height_pixels)
    (i : Nat) (st : k4a_image_t k4a_float3_t × Int)
    (hi : i < depth_image.width_pixels * depth_image.height_pixels)
    (hinv : GenInv depth_image xy_table point_cloud i st) :
    ∃ st', generate_point_cloud_body depth_image xy_table st i = some st' ∧
      GenInv depth_image xy_table point_cloud (i + 1) st' := by
  obtain ⟨hw, hh, hlow, hhigh, hcount⟩ := hinv
  obtain ⟨d, hd⟩ := read_some depth_image i hi
  obtain ⟨r, hr⟩ := read_some xy_table i (by rw [hx]; exact hi)
  have hst : i < st.1.width_pixels * st.1.height_pixels := by rw [hw, hh, hp]; exact hi
  have hcv : cell_valid depth_image xy_table i
      = (decide (d ≠ 0) && !r.x.isnan && !r.y.isnan) := by
    simp [cell_valid, hd, hr]
  have hfilter : ∀ b : Bool, cell_valid depth_image xy_table i = b →
      (((List.range (i + 1)).filter (cell_valid depth_image xy_table)).length : Int)
        = st.2 + (if b then 1 else 0) := by
    intro b hb
    rw [List.range_succ, List.filter_append, List.length_append, hcount]
    cases b <;> simp [List.filter_cons, hb]
  by_cases hv : d ≠ 0 ∧ r.x.isnan = false ∧ r.y.isnan = false
  · obtain ⟨pc, hpc, hpw, hph, hri, hrj⟩ := write_some st.1 i
      ⟨r.x.mul (F32.ofU16 d), r.y.mul (F32.ofU16 d), F32.ofU16 d⟩ hst
    have hpv : point_valid depth_image xy_table i = some true := by
      simp [point_valid, hd, hr, hv.1, hv.2.1, hv.2.2]
    refine ⟨(pc, st.2 + 1), ?_, hpw.trans hw, hph.trans hh, ?_, ?_, ?_⟩
    · simp [generate_point_cloud_body, hpv, hd, hr, hpc]
    · intro j hj
      by_cases hji : j = i
      · subst hji
        exact ⟨d, r, hd, hr, by simp [point_rule, hv, hri]⟩
      · obtain ⟨d', r', h1, h2, h3⟩ := hlow j (by omega)
        exact ⟨d', r', h1, h2, by simp only []; rw [hrj j hji]; exact h3⟩
    · intro j hj
      simp only []
      rw [hrj j (by omega)]
      exact hhigh j (by omega)
    · have := hfilter true (by rw [hcv]; simp [hv.1, hv.2.1, hv.2.2])
      simp only [] at this ⊢
      rw [this]; simp
  · obtain ⟨pc, hpc, hpw, hph, hri, hrj⟩ := write_some st.1 i nan3 hst
    have hpv : point_valid depth_image xy_table i = some false := by
      simp only [point_valid, hd]
      by_cases hd0 : d = 0
      · simp [hd0]
      · simp only [ne_eq, hd0, not_false_eq_true, if_true, hr]
        have : ¬ (r.x.isnan = false ∧ r.y.isnan = false) := fun h => hv ⟨hd0, h⟩
        cases hx' : r.x.isnan <;> cases hy' : r.y.isnan <;> simp_all
    refine ⟨(pc, st.2), ?_, hpw.trans hw, hph.trans hh, ?_, ?_, ?_⟩
    · simp [generate_point_cloud_body, hpv, hpc]
    · intro j hj
      by_cases hji : j = i
      · subst hji
        exact ⟨d, r, hd, hr, by simp [point_rule, hv, hri]⟩
      · obtain ⟨d', r', h1, h2, h3⟩ := hlow j (by omega)
        exact ⟨d', r', h1, h2, by simp only []; rw [hrj j hji]; exact h3⟩
    · intro j hj
      simp only []
      rw [hrj j (by omega)]
      exact hhigh j (by omega)
    · have hb : cell_valid depth_image xy_table i = false := by
        rw [hcv]
        by_cases hd0 : d = 0
        · simp [hd0]
        · have : ¬ (r.x.isnan = false ∧ r.y.isnan = false) := fun h => hv ⟨hd0, h⟩
          cases hx' : r.x.isnan <;> cases hy' : r.y.isnan <;> simp_all
      have := hfilter false hb
      simp only [] at this ⊢
      rw [this]; simp

theorem generate_point_cloud_inv (depth_image : k4a_image_t U16)
    (xy_table : k4a_image_t k4a_float2_t) (point_cloud : k4a_image_t k4a_float3_t)
    (point_count : Int)
    (hx : xy_table.width_pixels * xy_table.height_pixels =
      depth_image.width_pixels * depth_image.height_pixels)
    (hp : point_cloud.width_pixels * point_cloud.height_pixels =
      depth_image.width_pixels * depth_image.height_pixels) :
    ∃ st, generate_point_cloud depth_image xy_table point_cloud point_count = some st ∧
      GenInv depth_image xy_table point_cloud
        (depth_image.width_pixels * depth_image.height_pixels) st := by
  unfold generate_point_cloud
  apply foldlM_range_inv
  · exact ⟨rfl, rfl, fun i hi => absurd hi (Nat.not_lt_zero i), fun _ _ => rfl, by simp⟩
  · intro i s hi hinv
    exact generate_point_cloud_body_inv depth_image xy_table point_cloud hx hp i s hi hinv

/-! ## Text -/

theorem join_concat (l : List String) (s : String) : String.join (l ++ [s]) = String.join l ++ s := by
  apply String.ext
  simp [String.data_join]

theorem join_cons (s : String) (l : List String) : String.join (s :: l) = s ++ String.join l := by
  apply String.ext
  simp [String.data_join]

theorem line_count_append (s t : String) : line_count (s ++ t) = line_count s + line_count t := by
  simp [line_count]

theorem digitChar_ne_newline (k : Nat) (hk : k < 10) : Nat.digitChar k ≠ '\n' := by
  interval_cases k <;> decide

theorem toDigitsCore_no_newline (fuel : Nat) : ∀ (n : Nat) (ds : List Char),
    (∀ c ∈ ds, c ≠ '\n') → ∀ c ∈ Nat.toDigitsCore 10 fuel n ds, c ≠ '\n' := by
  induction fuel with
  | zero => intro n ds h c hc; exact h c (by simpa [Nat.toDigitsCore] using hc)
  | succ fuel ih =>
    intro n ds h c hc
    have hds : ∀ c ∈ Nat.digitChar (n % 10) :: ds, c ≠ '\n' := by
      intro c hc
      rcases List.mem_cons.1 hc with h1 | h1
      · rw [h1]; exact digitChar_ne_newline _ (Nat.mod_lt _ (by decide))
      · exact h c h1
    simp only [Nat.toDigitsCore] at hc
    split_ifs at hc
    · exact hds c hc
    · exact ih _ _ hds c hc

theorem line_count_nat (n : Nat) : line_count (toString n) = 0 := by
  have h : ∀ c ∈ Nat.toDigits 10 n, c ≠ '\n' :=
    toDigitsCore_no_newline _ _ _ (fun c hc => absurd hc (List.not_mem_nil c))
  show List.count '\n' (Nat.toDigits 10 n) = 0
  exact List.count_eq_zero.2 (fun hm => h _ hm rfl)

theorem line_count_int (z : Int) : line_count (toString z) = 0 := by
  cases z with
  | ofNat m => exact line_count_nat m
  | negSucc m =>
    show line_count ("-" ++ toString (m + 1)) = 0
    rw [line_count_append, line_count_nat]
    decide

theorem line_count_point_row (ub : F32 → Int) (p : k4a_float3_t) :
    line_count (point_row ub p) = 1 := by
  unfold point_row
  simp only [line_count_append, line_count_int]
  decide

theorem line_count_joint_row (ub : F32 → Int) (i : Nat) (joint : k4abt_joint_t) :
    line_count (joint_row ub i joint) = 1 := by
  unfold joint_row
  simp only [line_count_append, line_count_int, line_count_nat]
  decide

theorem line_count_join (rows : List String) (h : ∀ r ∈ rows, line_count r = 1) :
    line_count (String.join rows) = rows.length := by
  induction rows with
  | nil => rfl
  | cons r rows ih =>
    rw [join_cons, line_count_append, h r (List.mem_cons_self _ _),
      ih (fun r' hr' => h r' (List.mem_cons_of_mem _ hr'))]
    simp [Nat.add_comm]

/-! ## write_point_cloud: the loop -/

theorem write_point_cloud_loop (ub : F32 → Int) (point_cloud : k4a_image_t k4a_float3_t) :
    (List.range (point_cloud.width_pixels * point_cloud.height_pixels)).foldlM
      (write_point_cloud_body ub point_cloud) "" =
    some (String.join ((point_cloud.buffer.filter (fun p => !has_nan p)).map (point_row ub))) := by
  obtain ⟨ss, hss, hinv⟩ := foldlM_range_inv (write_point_cloud_body ub point_cloud)
    (fun k ss => ss = String.join
      (((point_cloud.buffer.take k).filter (fun p => !has_nan p)).map (point_row ub)))
    (point_cloud.width_pixels * point_cloud.height_pixels) "" (by simp [String.join])
    (by
      intro i ss hi hinv
      have hi' : i < point_cloud.buffer.length := by rw [point_cloud.size_eq]; exact hi
      have hr : point_cloud.read i = some point_cloud.buffer[i] := by
        simp [k4a_image_t.read, hi']
      have htake : point_cloud.buffer.take (i + 1)
          = point_cloud.buffer.take i ++ [point_cloud.buffer[i]] := by
        rw [List.take_succ]; simp [hi']
      by_cases hn : has_nan point_cloud.buffer[i] = true
      · refine ⟨ss, by simp [write_point_cloud_body, hr, hn], ?_⟩
        beta_reduce
        rw [htake, List.filter_append]
        simp [hn, hinv]
      · refine ⟨ss ++ point_row ub point_cloud.buffer[i],
          by simp [write_point_cloud_body, hr, hn], ?_⟩
        beta_reduce
        rw [htake, List.filter_append]
        simp only [Bool.not_eq_true] at hn
        simp only [List.filter_cons, hn, Bool.not_false, if_true, List.filter_nil,
          List.map_append, List.map_cons, List.map_nil]
        rw [join_concat, hinv])
  rw [hss, hinv, ← point_cloud.size_eq, List.take_length]

theorem write_point_cloud_eq (ub : F32 → Int) (point_cloud : k4a_image_t k4a_float3_t)
    (point_count : Int) (image_data : Option String) :
    write_point_cloud ub point_cloud point_count image_data =
      some ("x,y,z\n" ++
        String.join ((point_cloud.buffer.filter (fun p => !has_nan p)).map (point_row ub))) := by
  unfold write_point_cloud
  simp only [write_point_cloud_loop]
  rfl

/-! ## Point cloud: generation and export -/

theorem has_nan_point_rule (d : U16) (r : k4a_float2_t) :
    has_nan (point_rule d r) = !(decide (d ≠ 0) && !r.x.isnan && !r.y.isnan) := by
  unfold point_rule
  by_cases hv : d ≠ 0 ∧ r.x.isnan = false ∧ r.y.isnan = false
  · rw [if_pos hv]
    simp [has_nan, F32.mul_ofU16_isnan _ _ hv.2.1 hv.1, F32.mul_ofU16_isnan _ _ hv.2.2 hv.1,
      F32.ofU16_isnan, hv.1, hv.2.1, hv.2.2]
  · rw [if_neg hv]
    by_cases hd0 : d = 0
    · simp [hd0, has_nan, nan3, F32.isnan]
    · have : ¬ (r.x.isnan = false ∧ r.y.isnan = false) := fun h => hv ⟨hd0, h⟩
      cases hx' : r.x.isnan <;> cases hy' : r.y.isnan <;> simp_all [has_nan, nan3, F32.isnan]

theorem filter_length_eq_range {β : Type} (l : List β) (p : β → Bool) (q : Nat → Bool)
    (h : ∀ i, i < l.length → ∃ v, l[i]? = some v ∧ p v = q i) :
    (l.filter p).length = ((List.range l.length).filter q).length := by
  suffices hk : ∀ k, k ≤ l.length →
      ((l.take k).filter p).length = ((List.range k).filter q).length by
    have := hk l.length (le_refl _)
    rwa [List.take_length] at this
  intro k
  induction k with
  | zero => intro _; simp
  | succ k ih =>
    intro hk
    obtain ⟨v, hv, hpq⟩ := h k hk
    rw [List.take_succ, hv, List.range_succ, List.filter_append, List.filter_append,
      List.length_append, List.length_append, ih (Nat.le_of_succ_le hk)]
    cases hq : q k <;> simp [List.filter_cons, hpq, hq]

theorem generated_rows_length (depth_image : k4a_image_t U16)
    (xy_table : k4a_image_t k4a_float2_t) (point_cloud : k4a_image_t k4a_float3_t)
    (st : k4a_image_t k4a_float3_t × Int)
    (hp : point_cloud.width_pixels * point_cloud.height_pixels =
      depth_image.width_pixels * depth_image.height_pixels)
    (hinv : GenInv depth_image xy_table point_cloud
      (depth_image.width_pixels * depth_image.height_pixels) st) :
    ((st.1.buffer.filter (fun p => !has_nan p)).length : Int) = st.2 := by
  obtain ⟨hw, hh, hlow, _, hcount⟩ := hinv
  have hlen : st.1.buffer.length = depth_image.width_pixels * depth_image.height_pixels := by
    rw [st.1.size_eq, hw, hh, hp]
  rw [hcount, filter_length_eq_range st.1.buffer _ (cell_valid depth_image xy_table), hlen]
  intro i hi
  obtain ⟨d, r, hd, hr, hs⟩ := hlow i (by rw [← hlen]; exact hi)
  refine ⟨point_rule d r, hs, ?_⟩
  simp [has_nan_point_rule, cell_valid, hd, hr]

/-- C1. The per-pixel rule of `generate_point_cloud`: for a depth frame, a ray
table and an output buffer of the same dimensions the call returns, and at every
index `i < width * height` the output cell is
`(ray.x * depth, ray.y * depth, depth)`, with `z` denoting exactly the depth
sample, when the depth sample is not zero and neither ray component is NaN, and
is NaN in all three components otherwise. -/
theorem generate_point_cloud_per_pixel (depth_image : k4a_image_t U16)
    (xy_table : k4a_image_t k4a_float2_t) (point_cloud : k4a_image_t k4a_float3_t)
    (point_count : Int)
    (hxw : xy_table.width_pixels = depth_image.width_pixels)
    (hxh : xy_table.height_pixels = depth_image.height_pixels)
    (hpw : point_cloud.width_pixels = depth_image.width_pixels)
    (hph : point_cloud.height_pixels = depth_image.height_pixels) :
    ∃ pc n, generate_point_cloud depth_image xy_table point_cloud point_count = some (pc, n) ∧
      pc.width_pixels = depth_image.width_pixels ∧
      pc.height_pixels = depth_image.height_pixels ∧
      ∀ i, i < depth_image.width_pixels * depth_image.height_pixels →
        ∃ d r p, depth_image.read i = some d ∧ xy_table.read i = some r ∧
          pc.read i = some p ∧
          (d ≠ 0 → r.x.isnan = false → r.y.isnan = false →
            p = ⟨r.x.mul (F32.ofU16 d), r.y.mul (F32.ofU16 d), F32.ofU16 d⟩ ∧
            p.z.toRat = some (d.val : ℚ)) ∧
          (d = 0 ∨ r.x.isnan = true ∨ r.y.isnan = true → p = nan3) := by
  obtain ⟨⟨pc, n⟩, hgen, hw, hh, hlow, _, _⟩ :=
    generate_point_cloud_inv depth_image xy_table point_cloud point_count
      (by rw [hxw, hxh]) (by rw [hpw, hph])
  refine ⟨pc, n, hgen, hw.trans hpw, hh.trans hph, ?_⟩
  intro i hi
  obtain ⟨d, r, hd, hr, hp⟩ := hlow i hi
  refine ⟨d, r, point_rule d r, hd, hr, hp, ?_, ?_⟩
  · intro h0 hx hy
    have hrule : point_rule d r
        = ⟨r.x.mul (F32.ofU16 d), r.y.mul (F32.ofU16 d), F32.ofU16 d⟩ := by
      simp [point_rule, h0, hx, hy]
    rw [hrule]
    exact ⟨rfl, F32.ofU16_toRat d⟩
  · intro h
    have : ¬ (d ≠ 0 ∧ r.x.isnan = false ∧ r.y.isnan = false) := by
      rintro ⟨h0, hx, hy⟩
      rcases h with h | h | h
      · exact h0 h
      · rw [hx] at h; exact Bool.noConfusion h
      · rw [hy] at h; exact Bool.noConfusion h
    simp [point_rule, this]

theorem generate_point_cloud_per_pixel_witness :
    (scenario_xy_table.width_pixels = scenario_depth_image.width_pixels ∧
      scenario_xy_table.height_pixels = scenario_depth_image.height_pixels) ∧
    ∃ pc n, generate_point_cloud scenario_depth_image scenario_xy_table
        (k4a_image_t.create 2 2 nan3) 7 = some (pc, n) ∧
      pc.width_pixels = scenario_depth_image.width_pixels ∧
      pc.height_pixels = scenario_depth_image.height_pixels ∧
      ∀ i, i < scenario_depth_image.width_pixels * scenario_depth_image.height_pixels →
        ∃ d r p, scenario_depth_image.read i = some d ∧ scenario_xy_table.read i = some r ∧
          pc.read i = some p ∧
          (d ≠ 0 → r.x.isnan = false → r.y.isnan = false →
            p = ⟨r.x.mul (F32.ofU16 d), r.y.mul (F32.ofU16 d), F32.ofU16 d⟩ ∧
            p.z.toRat = some (d.val : ℚ)) ∧
          (d = 0 ∨ r.x.isnan = true ∨ r.y.isnan = true → p = nan3) :=
  ⟨⟨rfl, rfl⟩, generate_point_cloud_per_pixel scenario_depth_image scenario_xy_table
    (k4a_image_t.create 2 2 nan3) 7 rfl rfl rfl rfl⟩

/-- C2. The count `generate_point_cloud` leaves in `*point_count`: for a depth
frame, a ray table and an output buffer of the same dimensions, and whatever
`*point_count` held before, it equals the number of indices below
`width * height` whose depth sample is not zero and whose ray has no NaN
component, and so is at most `width * height`. -/
theorem generate_point_cloud_count (depth_image : k4a_image_t U16)
    (xy_table : k4a_image_t k4a_float2_t) (point_cloud : k4a_image_t k4a_float3_t)
    (point_count : Int)
    (hxw : xy_table.width_pixels = depth_image.width_pixels)
    (hxh : xy_table.height_pixels = depth_image.height_pixels)
    (hpw : point_cloud.width_pixels = depth_image.width_pixels)
    (hph : point_cloud.height_pixels = depth_image.height_pixels) :
    ∃ pc n, generate_point_cloud depth_image xy_table point_cloud point_count = some (pc, n) ∧
      n = (valid_recount depth_image xy_table : Int) ∧
      n ≤ ((depth_image.width_pixels * depth_image.height_pixels : Nat) : Int) := by
  obtain ⟨⟨pc, n⟩, hgen, _, _, _, _, hcount⟩ :=
    generate_point_cloud_inv depth_image xy_table point_cloud point_count
      (by rw [hxw, hxh]) (by rw [hpw, hph])
  refine ⟨pc, n, hgen, hcount, ?_⟩
  simp only [] at hcount
  rw [hcount]
  have h := List.length_filter_le (cell_valid depth_image xy_table)
    (List.range (depth_image.width_pixels * depth_image.height_pixels))
  rw [List.length_range] at h
  exact_mod_cast h

theorem generate_point_cloud_count_witness :
    (scenario_xy_table.width_pixels = scenario_depth_image.width_pixels ∧
      scenario_xy_table.height_pixels = scenario_depth_image.height_pixels) ∧
    ∃ pc n, generate_point_cloud scenario_depth_image scenario_xy_table
        (k4a_image_t.create 2 2 nan3) 7 = some (pc, n) ∧
      n = (valid_recount scenario_depth_image scenario_xy_table : Int) ∧
      n ≤ ((scenario_depth_image.width_pixels * scenario_depth_image.height_pixels : Nat) : Int) :=
  ⟨⟨rfl, rfl⟩, generate_point_cloud_count scenario_depth_image scenario_xy_table
    (k4a_image_t.create 2 2 nan3) 7 rfl rfl rfl rfl⟩

/-- C3. Export of a generated point cloud: for a depth frame, a ray table and
an output buffer of the same dimensions, whatever the platform does on an
undefined `(int)` conversion, `write_point_cloud` applied to the result of
`generate_point_cloud` writes the header followed by a body whose number of
lines is the count `generate_point_cloud` returned, the body being the rows of
exactly the cells without a NaN component, in order. On the 2x2 scenario the
count is 2 and the text is the header, `100,100,100` and `100,0,50`. -/
theorem export_rows_eq_valid_count :
    (∀ (ub : F32 → Int) (depth_image : k4a_image_t U16)
        (xy_table : k4a_image_t k4a_float2_t) (point_cloud : k4a_image_t k4a_float3_t)
        (point_count : Int) (image_data : Option String),
        xy_table.width_pixels = depth_image.width_pixels →
        xy_table.height_pixels = depth_image.height_pixels →
        point_cloud.width_pixels = depth_image.width_pixels →
        point_cloud.height_pixels = depth_image.height_pixels →
        ∃ pc n body,
          generate_point_cloud depth_image xy_table point_cloud point_count = some (pc, n) ∧
          write_point_cloud ub pc n image_data = some ("x,y,z\n" ++ body) ∧
          (line_count body : Int) = n ∧
          body = String.join ((pc.buffer.filter (fun p => !has_nan p)).map (point_row ub))) ∧
    (∀ (ub : F32 → Int) (fresh : k4a_float3_t) (point_count : Int)
        (image_data : Option String),
        ∃ pc, generate_point_cloud scenario_depth_image scenario_xy_table
            (k4a_image_t.create 2 2 fresh) point_count = some (pc, 2) ∧
          write_point_cloud ub pc 2 image_data = some "x,y,z\n100,100,100\n100,0,50\n") := by
  constructor
  · intro ub depth_image xy_table point_cloud point_count image_data hxw hxh hpw hph
    obtain ⟨⟨pc, n⟩, hgen, hinv⟩ :=
      generate_point_cloud_inv depth_image xy_table point_cloud point_count
        (by rw [hxw, hxh]) (by rw [hpw, hph])
    refine ⟨pc, n, _, hgen, write_point_cloud_eq ub pc n image_data, ?_, rfl⟩
    rw [line_count_join]
    · rw [List.length_map]
      exact generated_rows_length depth_image xy_table point_cloud (pc, n)
        (by rw [hpw, hph]) hinv
    · intro row hrow
      obtain ⟨p, _, rfl⟩ := List.mem_map.1 hrow
      exact line_count_point_row ub p
  · intro ub fresh point_count image_data
    exact ⟨_, rfl, rfl⟩

theorem export_rows_eq_valid_count_witness :
    (scenario_xy_table.width_pixels = scenario_depth_image.width_pixels ∧
      scenario_xy_table.height_pixels = scenario_depth_image.height_pixels) ∧
    ∃ pc n body,
      generate_point_cloud scenario_depth_image scenario_xy_table
        (k4a_image_t.create 2 2 nan3) 7 = some (pc, n) ∧
      write_point_cloud ub_x86 pc n none = some ("x,y,z\n" ++ body) ∧
      (line_count body : Int) = n ∧
      body = String.join ((pc.buffer.filter (fun p => !has_nan p)).map (point_row ub_x86)) :=
  ⟨⟨rfl, rfl⟩, export_rows_eq_valid_count.1 ub_x86 scenario_depth_image scenario_xy_table
    (k4a_image_t.create 2 2 nan3) 7 none rfl rfl rfl rfl⟩

theorem export_lines_of_fits (ub : F32 → Int) : ∀ cells : List k4a_float3_t,
    (∀ p ∈ cells, has_nan p = false →
      fitsInt p.x = true ∧ fitsInt p.y = true ∧ fitsInt p.z = true) →
    export_lines cells = some ((cells.filter (fun p => !has_nan p)).map (point_row ub)) := by
  intro cells
  induction cells with
  | nil => intro _; rfl
  | cons p rest ih =>
    intro h
    have ih' := ih (fun q hq => h q (List.mem_cons_of_mem _ hq))
    by_cases hn : has_nan p = true
    · simp [export_lines, hn, ih']
    · simp only [Bool.not_eq_true] at hn
      obtain ⟨hx, hy, hz⟩ := h p (List.mem_cons_self _ _) hn
      have hrow : spec_point_row p = some (point_row ub p) := by
        simp [spec_point_row, castInt_of_fits ub _ hx, castInt_of_fits ub _ hy,
          castInt_of_fits ub _ hz, point_row]
      simp [export_lines, hn, ih', hrow]

/-- C4, counterexample. On the frame whose only point is (+infinity, 0, 1)
no platform behaviour makes the written text the one the claim describes,
because +infinity has no truncation to an integer; and on the frame whose only
point is (3000000000, 0, 1) an x86-64 build writes `-2147483648,0,1` where the
claim says `3000000000,0,1`. -/
theorem write_point_cloud_not_truncation :
    (¬ ∃ ub : F32 → Int, write_point_cloud ub inf_frame 1 none = exportPointCloud inf_frame) ∧
    write_point_cloud ub_x86 big_frame 1 none = some "x,y,z\n-2147483648,0,1\n" ∧
    exportPointCloud big_frame = some "x,y,z\n3000000000,0,1\n" := by
  refine ⟨?_, rfl, rfl⟩
  rintro ⟨ub, h⟩
  rw [write_point_cloud_eq] at h
  have hspec : exportPointCloud inf_frame = none := rfl
  rw [hspec] at h
  exact Option.noConfusion h

/-- C4, amended. For every point-cloud frame and every platform behaviour,
`write_point_cloud` leaves in `image.data` the header `x,y,z` followed, for the
cells in increasing index order, by exactly one newline-terminated line for a
point without NaN component and by nothing for a point with one. When every
component of every such point truncates toward zero to a value of type `int`,
the line is `X,Y,Z` with the truncated components, and the text is the one the
spec's export describes. -/
theorem write_point_cloud_text (ub : F32 → Int) (frame : k4a_image_t k4a_float3_t)
    (point_count : Int) (image_data : Option String) :
    write_point_cloud ub frame point_count image_data =
      some ("x,y,z\n" ++
        String.join ((frame.buffer.filter (fun p => !has_nan p)).map (point_row ub))) ∧
    (∀ p, line_count (point_row ub p) = 1) ∧
    ((∀ p ∈ frame.buffer, has_nan p = false →
        fitsInt p.x = true ∧ fitsInt p.y = true ∧ fitsInt p.z = true) →
      (∀ p ∈ frame.buffer, has_nan p = false → spec_point_row p = some (point_row ub p)) ∧
      write_point_cloud ub frame point_count image_data = exportPointCloud frame) := by
  refine ⟨write_point_cloud_eq ub frame point_count image_data,
    line_count_point_row ub, ?_⟩
  intro h
  constructor
  · intro p hp hn
    obtain ⟨hx, hy, hz⟩ := h p hp hn
    simp [spec_point_row, castInt_of_fits ub _ hx, castInt_of_fits ub _ hy,
      castInt_of_fits ub _ hz, point_row]
  · rw [write_point_cloud_eq, exportPointCloud, export_lines_of_fits ub frame.buffer h]

/-- A 2x2 frame with two valid points, as the 2x2 scenario produces. -/
theorem write_point_cloud_text_witness :
    write_point_cloud ub_x86 scenario_frame 2 none = exportPointCloud scenario_frame :=
  ((write_point_cloud_text ub_x86 scenario_frame 2 none).2.2 (by decide)).2

/-! ## Skeleton export -/

theorem foldl_append_join {ι : Type} (f : ι → String) : ∀ (l : List ι) (init : String),
    l.foldl (fun ss i => ss ++ f i) init = init ++ String.join (l.map f) := by
  intro l
  induction l with
  | nil => intro init; apply String.ext; simp [String.data_join]
  | cons a l ih =>
    intro init
    rw [List.foldl_cons, ih, List.map_cons, join_cons, String.append_assoc]

theorem print_body_information_eq {N : Nat} (ub : F32 → Int) (body : k4abt_body_t N)
    (joint_data : Option String) :
    print_body_information ub body joint_data =
      "joint_id,x,y,z,confidence\n" ++
        String.join ((List.finRange N).map
          (fun i => joint_row ub i.val (body.skeleton.joints i))) := by
  unfold print_body_information
  simp only [foldl_append_join]
  apply String.ext
  simp

theorem collect_rows_map_some {ι : Type} (f : ι → Option String) (g : ι → String) :
    ∀ l : List ι, (∀ i ∈ l, f i = some (g i)) → collect_rows (l.map f) = some (l.map g) := by
  intro l
  induction l with
  | nil => intro _; rfl
  | cons a l ih =>
    intro h
    simp [collect_rows, h a (List.mem_cons_self _ _),
      ih (fun i hi => h i (List.mem_cons_of_mem _ hi))]

/-- C6, counterexample. With 32 joints, all confidences at the lowest level:
for the body whose joint 0 has a NaN `x` no platform behaviour makes the
written text the one the claim describes, because NaN has no truncation to an
integer; and for the body whose joint 0 is at (3000000000, 0, 1) an x86-64
build writes the row `0,-2147483648,0,1,0` where the claim says
`0,3000000000,0,1,0`. -/
theorem print_body_information_not_truncation :
    (¬ ∃ ub : F32 → Int,
      some (print_body_information ub nan_body none) = exportSkeleton nan_body.skeleton) ∧
    print_body_information ub_x86 big_body none =
      "joint_id,x,y,z,confidence\n0,-2147483648,0,1,0\n" ++
        String.join ((List.range 31).map (fun i => toString (i + 1) ++ ",0,0,0,0\n")) ∧
    exportSkeleton big_body.skeleton =
      some ("joint_id,x,y,z,confidence\n0,3000000000,0,1,0\n" ++
        String.join ((List.range 31).map (fun i => toString (i + 1) ++ ",0,0,0,0\n"))) := by
  refine ⟨?_, rfl, rfl⟩
  rintro ⟨ub, h⟩
  have hspec : exportSkeleton nan_body.skeleton = none := rfl
  rw [hspec] at h
  exact Option.noConfusion h

/-- C6, amended. For every tracked body, every platform behaviour and whatever
`joint.data` held, `print_body_information` leaves in `joint.data` the header
`joint_id,x,y,z,confidence` followed by exactly `K4ABT_JOINT_COUNT` rows, one
line each, the row of joint `i` in the order 0..N-1, none skipped, beginning
with `i` and ending with the numeric code of the confidence level. When every
coordinate of every joint truncates toward zero to a value of type `int`, the
row is `i,X,Y,Z,C` with the truncated coordinates, and the text is the one the
spec's export describes. -/
theorem print_body_information_text {N : Nat} (ub : F32 → Int) (body : k4abt_body_t N)
    (joint_data : Option String) :
    print_body_information ub body joint_data =
      "joint_id,x,y,z,confidence\n" ++
        String.join ((List.finRange N).map
          (fun i => joint_row ub i.val (body.skeleton.joints i))) ∧
    ((List.finRange N).map (fun i => joint_row ub i.val (body.skeleton.joints i))).length = N ∧
    line_count (print_body_information ub body joint_data) = N + 1 ∧
    ((∀ i : Fin N, fitsInt (body.skeleton.joints i).position.x = true ∧
        fitsInt (body.skeleton.joints i).position.y = true ∧
        fitsInt (body.skeleton.joints i).position.z = true) →
      (∀ i : Fin N, spec_joint_row i.val (body.skeleton.joints i)
        = some (joint_row ub i.val (body.skeleton.joints i))) ∧
      some (print_body_information ub body joint_data) = exportSkeleton body.skeleton) := by
  have hrow : ∀ i : Fin N, fitsInt (body.skeleton.joints i).position.x = true ∧
        fitsInt (body.skeleton.joints i).position.y = true ∧
        fitsInt (body.skeleton.joints i).position.z = true →
      spec_joint_row i.val (body.skeleton.joints i)
        = some (joint_row ub i.val (body.skeleton.joints i)) := by
    rintro i ⟨hx, hy, hz⟩
    simp [spec_joint_row, castInt_of_fits ub _ hx, castInt_of_fits ub _ hy,
      castInt_of_fits ub _ hz, joint_row]
  refine ⟨print_body_information_eq ub body joint_data, by simp, ?_, ?_⟩
  · rw [print_body_information_eq, line_count_append, line_count_join]
    · simp only [List.length_map, List.length_finRange]
      have : line_count "joint_id,x,y,z,confidence\n" = 1 := by decide
      omega
    · intro row hrow'
      obtain ⟨i, _, rfl⟩ := List.mem_map.1 hrow'
      exact line_count_joint_row ub i.val _
  · intro h
    refine ⟨fun i => hrow i (h i), ?_⟩
    rw [print_body_information_eq, exportSkeleton,
      collect_rows_map_some _ (fun i : Fin N => joint_row ub i.val (body.skeleton.joints i))
        _ (fun i _ => hrow i (h i))]

theorem print_body_information_text_witness :
    some (print_body_information ub_x86 plain_body none) = exportSkeleton plain_body.skeleton :=
  ((print_body_information_text ub_x86 plain_body none).2.2.2 (by decide)).2

/-! ## create_xy_table -/

theorem create_xy_table_cell_inv (prim : Unproject) (calibration : k4a_calibration_t)
    (xy_table : k4a_image_t k4a_float2_t)
    (hw : xy_table.width_pixels = calibration.resolution_width)
    (hh : xy_table.height_pixels = calibration.resolution_height)
    (y : Nat) (hy : y < calibration.resolution_height)
    (x : Nat) (hx : x < calibration.resolution_width)
    (st : Nat × k4a_image_t k4a_float2_t)
    (hinv : TableInv prim calibration xy_table (y * calibration.resolution_width + x) st) :
    ∃ st', create_xy_table_cell prim calibration y st x = some st' ∧
      TableInv prim calibration xy_table (y * calibration.resolution_width + (x + 1)) st' := by
  obtain ⟨hidx, hsw, hsh, hcells⟩ := hinv
  have hbound : y * calibration.resolution_width + x
      < calibration.resolution_width * calibration.resolution_height := by
    have h1 : (y + 1) * calibration.resolution_width
        ≤ calibration.resolution_height * calibration.resolution_width :=
      Nat.mul_le_mul_right _ hy
    rw [Nat.mul_comm calibration.resolution_width]
    rw [Nat.succ_mul] at h1
    omega
  have hst : st.1 < st.2.width_pixels * st.2.height_pixels := by
    rw [hidx, hsw, hsh, hw, hh]; exact hbound
  obtain ⟨t, ht, htw, hth, hri, hrj⟩ := write_some st.2 st.1 (xy_cell prim calibration x y) hst
  have hcell : create_xy_table_cell prim calibration y st x = some (st.1 + 1, t) := by
    unfold create_xy_table_cell
    have : (if (prim calibration ⟨F32.ofNat x, F32.ofNat y⟩ F32.one
          k4a_calibration_type_t.K4A_CALIBRATION_TYPE_DEPTH
          k4a_calibration_type_t.K4A_CALIBRATION_TYPE_DEPTH).2 ≠ 0 then
        (⟨(prim calibration ⟨F32.ofNat x, F32.ofNat y⟩ F32.one
          k4a_calibration_type_t.K4A_CALIBRATION_TYPE_DEPTH
          k4a_calibration_type_t.K4A_CALIBRATION_TYPE_DEPTH).1.x,
          (prim calibration ⟨F32.ofNat x, F32.ofNat y⟩ F32.one
          k4a_calibration_type_t.K4A_CALIBRATION_TYPE_DEPTH
          k4a_calibration_type_t.K4A_CALIBRATION_TYPE_DEPTH).1.y⟩ : k4a_float2_t)
        else ⟨F32.nan, F32.nan⟩) = xy_cell prim calibration x y := rfl
    simp only [this, ht]
  refine ⟨(st.1 + 1, t), hcell, ?_, htw.trans hsw, hth.trans hsh, ?_⟩
  · simp only []; rw [hidx]; omega
  · intro j hj
    simp only []
    by_cases hji : j = st.1
    · rw [hji, hri, hidx]
      have hpos : 0 < calibration.resolution_width := by omega
      rw [Nat.mul_comm y, Nat.mul_add_mod, Nat.mod_eq_of_lt hx, Nat.mul_add_div hpos,
        Nat.div_eq_of_lt hx, Nat.add_zero]
    · rw [hrj j hji]
      exact hcells j (by omega)

theorem create_xy_table_row_inv (prim : Unproject) (calibration : k4a_calibration_t)
    (xy_table : k4a_image_t k4a_float2_t)
    (hw : xy_table.width_pixels = calibration.resolution_width)
    (hh : xy_table.height_pixels = calibration.resolution_height)
    (y : Nat) (hy : y < calibration.resolution_height)
    (st : Nat × k4a_image_t k4a_float2_t)
    (hinv : TableInv prim calibration xy_table (y * calibration.resolution_width) st) :
    ∃ st', create_xy_table_row prim calibration calibration.resolution_width st y = some st' ∧
      TableInv prim calibration xy_table ((y + 1) * calibration.resolution_width) st' := by
  unfold create_xy_table_row
  rw [Nat.succ_mul]
  exact foldlM_range_inv (create_xy_table_cell prim calibration y)
    (fun x st => TableInv prim calibration xy_table (y * calibration.resolution_width + x) st)
    calibration.resolution_width st hinv
    (fun x s hx hs => create_xy_table_cell_inv prim calibration xy_table hw hh y hy x hx s hs)

theorem create_xy_table_inv (prim : Unproject) (calibration : k4a_calibration_t)
    (xy_table : k4a_image_t k4a_float2_t)
    (hw : xy_table.width_pixels = calibration.resolution_width)
    (hh : xy_table.height_pixels = calibration.resolution_height) :
    ∃ table, create_xy_table prim calibration xy_table = some table ∧
      table.width_pixels = calibration.resolution_width ∧
      table.height_pixels = calibration.resolution_height ∧
      ∀ j, j < calibration.resolution_height * calibration.resolution_width →
        table.read j = some (xy_cell prim calibration
          (j % calibration.resolution_width) (j / calibration.resolution_width)) := by
  obtain ⟨st, hst, hidx, hsw, hsh, hcells⟩ := foldlM_range_inv
    (create_xy_table_row prim calibration calibration.resolution_width)
    (fun y st => TableInv prim calibration xy_table
      (y * calibration.resolution_width) st)
    calibration.resolution_height (0, xy_table)
    ⟨by simp, rfl, rfl, fun j hj => by simp at hj⟩
    (fun y s hy hs =>
      create_xy_table_row_inv prim calibration xy_table hw hh y hy s hs)
  exact ⟨st.2, by simp [create_xy_table, hst], hsw.trans hw, hsh.trans hh, hcells⟩

/-- C5. The ray table `create_xy_table` builds: when the table image has the
depth resolution of the calibration, the call returns, the dimensions are
kept, and for every pixel (`x`, `y`) of the resolution the cell at index
`y * width + x` is the one obtained by querying the primitive at pixel
(`x`, `y`) with depth `1.f`, depth camera as source and as target: the pair
(`ray.x`, `ray.y`) when it reports valid, (NaN, NaN) when it reports invalid.
Every index below `width * height` is such a cell. -/
theorem create_xy_table_cells (k4a_calibration_2d_to_3d : Unproject)
    (calibration : k4a_calibration_t) (xy_table : k4a_image_t k4a_float2_t)
    (hw : xy_table.width_pixels = calibration.resolution_width)
    (hh : xy_table.height_pixels = calibration.resolution_height) :
    ∃ table, create_xy_table k4a_calibration_2d_to_3d calibration xy_table = some table ∧
      table.width_pixels = calibration.resolution_width ∧
      table.height_pixels = calibration.resolution_height ∧
      (∀ x y, x < calibration.resolution_width → y < calibration.resolution_height →
        table.read (y * calibration.resolution_width + x) =
          some (
            if (k4a_calibration_2d_to_3d calibration ⟨F32.ofNat x, F32.ofNat y⟩ F32.one
                k4a_calibration_type_t.K4A_CALIBRATION_TYPE_DEPTH
                k4a_calibration_type_t.K4A_CALIBRATION_TYPE_DEPTH).2 ≠ 0
            then
              ⟨(k4a_calibration_2d_to_3d calibration ⟨F32.ofNat x, F32.ofNat y⟩ F32.one
                k4a_calibration_type_t.K4A_CALIBRATION_TYPE_DEPTH
                k4a_calibration_type_t.K4A_CALIBRATION_TYPE_DEPTH).1.x,
               (k4a_calibration_2d_to_3d calibration ⟨F32.ofNat x, F32.ofNat y⟩ F32.one
                k4a_calibration_type_t.K4A_CALIBRATION_TYPE_DEPTH
                k4a_calibration_type_t.K4A_CALIBRATION_TYPE_DEPTH).1.y⟩
            else ⟨F32.nan, F32.nan⟩)) ∧
      (∀ j, j < calibration.resolution_width * calibration.resolution_height →
        ∃ x y, x < calibration.resolution_width ∧ y < calibration.resolution_height ∧
          j = y * calibration.resolution_width + x) := by
  obtain ⟨table, htable, htw, hth, hcells⟩ :=
    create_xy_table_inv k4a_calibration_2d_to_3d calibration xy_table hw hh
  refine ⟨table, htable, htw, hth, ?_, ?_⟩
  · intro x y hx hy
    have hlt : y * calibration.resolution_width + x
        < calibration.resolution_height * calibration.resolution_width := by
      have h1 : (y + 1) * calibration.resolution_width
          ≤ calibration.resolution_height * calibration.resolution_width :=
        Nat.mul_le_mul_right _ hy
      rw [Nat.succ_mul] at h1
      omega
    have hpos : 0 < calibration.resolution_width := by omega
    have := hcells _ hlt
    rw [Nat.mul_comm y, Nat.mul_add_mod, Nat.mod_eq_of_lt hx, Nat.mul_add_div hpos,
      Nat.div_eq_of_lt hx, Nat.add_zero] at this
    rw [Nat.mul_comm y]
    exact this
  · intro j hj
    have hpos : 0 < calibration.resolution_width := by
      rcases Nat.eq_zero_or_pos calibration.resolution_width with h | h
      · rw [h] at hj; simp at hj
      · exact h
    refine ⟨j % calibration.resolution_width, j / calibration.resolution_width,
      Nat.mod_lt _ hpos, ?_, ?_⟩
    · exact (Nat.div_lt_iff_lt_mul hpos).2 (by rw [Nat.mul_comm]; exact hj)
    · rw [Nat.mul_comm]; exact (Nat.div_add_mod j _).symm

theorem create_xy_table_cells_witness :
    ((k4a_image_t.create 2 2 nan2).width_pixels = scenario_calibration.resolution_width ∧
      (k4a_image_t.create 2 2 nan2).height_pixels = scenario_calibration.resolution_height) ∧
    ∃ table, create_xy_table scenario_unproject scenario_calibration
        (k4a_image_t.create 2 2 nan2) = some table ∧
      table.read (0 * scenario_calibration.resolution_width + 1) = some nan2 ∧
      table.read (1 * scenario_calibration.resolution_width + 1)
        = some ⟨F32.fin false 1 0, F32.fin false 1 0⟩ := by
  obtain ⟨table, h, _, _, hcell, _⟩ := create_xy_table_cells scenario_unproject
    scenario_calibration (k4a_image_t.create 2 2 nan2) rfl rfl
  exact ⟨⟨rfl, rfl⟩, table, h, hcell 1 0 (by decide) (by decide),
    hcell 1 1 (by decide) (by decide)⟩

/-! ## main: the paths -/

theorem main_tables {N : Nat} (w : World N) (calibration : k4a_calibration_t) :
    ∃ xy_table, create_xy_table w.k4a_calibration_2d_to_3d calibration
        (k4a_image_t.create calibration.resolution_width calibration.resolution_height
          w.fresh2) = some xy_table ∧
      xy_table.width_pixels = calibration.resolution_width ∧
      xy_table.height_pixels = calibration.resolution_height := by
  obtain ⟨t, ht, hw, hh, _⟩ := create_xy_table_inv w.k4a_calibration_2d_to_3d calibration
    (k4a_image_t.create calibration.resolution_width calibration.resolution_height w.fresh2)
    rfl rfl
  exact ⟨t, ht, hw, hh⟩

theorem main_no_device {N : Nat} (w : World N) (files : Files)
    (h0 : w.installed_count = 0) :
    main w files = some ⟨0, files, [Call.printf "No K4A devices found\n"]⟩ := by
  simp [main, h0]

theorem main_open_failure {N : Nat} (w : World N) (files : Files)
    (h0 : w.installed_count ≠ 0) (hopen : w.device_open = false) :
    main w files = some ⟨1, files,
      [Call.k4a_device_open, Call.printf "Failed to open device\n"]⟩ := by
  simp [main, h0, hopen, main_exit]

theorem main_calibration_failure {N : Nat} (w : World N) (files : Files)
    (h0 : w.installed_count ≠ 0) (hopen : w.device_open = true)
    (hcal : w.get_calibration = none) :
    main w files = some ⟨1, files,
      [Call.k4a_device_open, Call.k4a_device_get_calibration,
        Call.printf "Failed to get calibration\n", Call.k4a_device_close]⟩ := by
  simp [main, h0, hopen, hcal, main_exit]

theorem main_start_failure {N : Nat} (w : World N) (files : Files)
    (h0 : w.installed_count ≠ 0) (hopen : w.device_open = true)
    (calibration : k4a_calibration_t) (hcal : w.get_calibration = some calibration)
    (hstart : w.start_cameras = false) :
    main w files = some ⟨1, files,
      [Call.k4a_device_open, Call.k4a_device_get_calibration,
        Call.k4a_image_create ImageVar.xy_table, Call.create_xy_table,
        Call.k4a_image_create ImageVar.point_cloud, Call.k4a_device_start_cameras,
        Call.printf "Failed to start cameras\n", Call.k4a_device_close]⟩ := by
  obtain ⟨xy_table, hxy, _, _⟩ := main_tables w calibration
  simp [main, h0, hopen, hcal, hxy, hstart, main_exit]

theorem main_capture_failure {N : Nat} (w : World N) (files : Files)
    (h0 : w.installed_count ≠ 0) (hopen : w.device_open = true)
    (calibration : k4a_calibration_t) (hcal : w.get_calibration = some calibration)
    (hstart : w.start_cameras = true)
    (hcap : w.get_capture ≠ k4a_wait_result_t.K4A_WAIT_RESULT_SUCCEEDED) :
    main w files = some ⟨1, files,
      [Call.k4a_device_open, Call.k4a_device_get_calibration,
        Call.k4a_image_create ImageVar.xy_table, Call.create_xy_table,
        Call.k4a_image_create ImageVar.point_cloud, Call.k4a_device_start_cameras,
        Call.k4a_device_get_capture 1000, Call.printf "capture error",
        Call.k4a_device_close]⟩ := by
  obtain ⟨xy_table, hxy, _, _⟩ := main_tables w calibration
  simp [main, h0, hopen, hcal, hxy, hstart, hcap, main_exit, TIMEOUT_IN_MS]

theorem main_enqueue_failure {N : Nat} (w : World N) (files : Files)
    (h0 : w.installed_count ≠ 0) (hopen : w.device_open = true)
    (calibration : k4a_calibration_t) (hcal : w.get_calibration = some calibration)
    (hstart : w.start_cameras = true)
    (hcap : w.get_capture = k4a_wait_result_t.K4A_WAIT_RESULT_SUCCEEDED)
    (henq : w.enqueue_capture = false) :
    main w files = some ⟨1, files,
      [Call.k4a_device_open, Call.k4a_device_get_calibration,
        Call.k4a_image_create ImageVar.xy_table, Call.create_xy_table,
        Call.k4a_image_create ImageVar.point_cloud, Call.k4a_device_start_cameras,
        Call.k4a_device_get_capture 1000, Call.k4a_capture_get_depth_image,
        Call.tracker_create, Call.enqueue_capture, Call.cout "Error! tracking failed\n",
        Call.k4a_device_close]⟩ := by
  obtain ⟨xy_table, hxy, _, _⟩ := main_tables w calibration
  simp [main, h0, hopen, hcal, hxy, hstart, hcap, henq, main_exit, TIMEOUT_IN_MS]

theorem main_pop_failure {N : Nat} (w : World N) (files : Files)
    (h0 : w.installed_count ≠ 0) (hopen : w.device_open = true)
    (calibration : k4a_calibration_t) (hcal : w.get_calibration = some calibration)
    (hstart : w.start_cameras = true)
    (hcap : w.get_capture = k4a_wait_result_t.K4A_WAIT_RESULT_SUCCEEDED)
    (henq : w.enqueue_capture = true) (hpop : w.pop_result = none) :
    main w files = some ⟨1, files,
      [Call.k4a_device_open, Call.k4a_device_get_calibration,
        Call.k4a_image_create ImageVar.xy_table, Call.create_xy_table,
        Call.k4a_image_create ImageVar.point_cloud, Call.k4a_device_start_cameras,
        Call.k4a_device_get_capture 1000, Call.k4a_capture_get_depth_image,
        Call.tracker_create, Call.enqueue_capture, Call.pop_result, Call.tracker_shutdown,
        Call.cout "Error! Pop body frame result time out!\n", Call.k4a_device_close]⟩ := by
  obtain ⟨xy_table, hxy, _, _⟩ := main_tables w calibration
  simp [main, h0, hopen, hcal, hxy, hstart, hcap, henq, hpop, main_exit, TIMEOUT_IN_MS]

theorem main_depth_missing {N : Nat} (w : World N) (files : Files)
    (h0 : w.installed_count ≠ 0) (hopen : w.device_open = true)
    (calibration : k4a_calibration_t) (hcal : w.get_calibration = some calibration)
    (hstart : w.start_cameras = true)
    (hcap : w.get_capture = k4a_wait_result_t.K4A_WAIT_RESULT_SUCCEEDED)
    (henq : w.enqueue_capture = true)
    (body : k4abt_body_t N) (hpop : w.pop_result = some body)
    (hdepth : w.get_depth_image = none) :
    main w files = some ⟨1,
      ⟨some (print_body_information w.ub body files.joint_data), files.image_data⟩,
      [Call.k4a_device_open, Call.k4a_device_get_calibration,
        Call.k4a_image_create ImageVar.xy_table, Call.create_xy_table,
        Call.k4a_image_create ImageVar.point_cloud, Call.k4a_device_start_cameras,
        Call.k4a_device_get_capture 1000, Call.k4a_capture_get_depth_image,
        Call.tracker_create, Call.enqueue_capture, Call.pop_result, Call.tracker_shutdown,
        Call.get_body 0, Call.print_body_information, Call.printf "body detected\n",
        Call.printf "Failed to get depth image from capture\n", Call.k4a_device_close]⟩ := by
  obtain ⟨xy_table, hxy, _, _⟩ := main_tables w calibration
  simp [main, h0, hopen, hcal, hxy, hstart, hcap, henq, hpop, hdepth, main_exit, TIMEOUT_IN_MS]

theorem main_success {N : Nat} (w : World N) (files : Files)
    (h0 : w.installed_count ≠ 0) (hopen : w.device_open = true)
    (calibration : k4a_calibration_t) (hcal : w.get_calibration = some calibration)
    (hstart : w.start_cameras = true)
    (hcap : w.get_capture = k4a_wait_result_t.K4A_WAIT_RESULT_SUCCEEDED)
    (henq : w.enqueue_capture = true)
    (body : k4abt_body_t N) (hpop : w.pop_result = some body)
    (depth_image : k4a_image_t U16) (hdepth : w.get_depth_image = some depth_image)
    (hw : depth_image.width_pixels = calibration.resolution_width)
    (hh : depth_image.height_pixels = calibration.resolution_height) :
    ∃ image_data, main w files = some ⟨0,
      ⟨some (print_body_information w.ub body files.joint_data), some image_data⟩,
      [Call.k4a_device_open, Call.k4a_device_get_calibration,
        Call.k4a_image_create ImageVar.xy_table, Call.create_xy_table,
        Call.k4a_image_create ImageVar.point_cloud, Call.k4a_device_start_cameras,
        Call.k4a_device_get_capture 1000, Call.k4a_capture_get_depth_image,
        Call.tracker_create, Call.enqueue_capture, Call.pop_result, Call.tracker_shutdown,
        Call.get_body 0, Call.print_body_information, Call.printf "body detected\n",
        Call.generate_point_cloud, Call.write_point_cloud,
        Call.k4a_image_release ImageVar.depth_image,
        Call.k4a_image_release ImageVar.xy_table,
        Call.k4a_image_release ImageVar.point_cloud, Call.k4a_device_close]⟩ := by
  obtain ⟨xy_table, hxy, hxw, hxh⟩ := main_tables w calibration
  obtain ⟨⟨pc, n⟩, hgen, _⟩ := generate_point_cloud_inv depth_image xy_table
    (k4a_image_t.create calibration.resolution_width calibration.resolution_height w.fresh3) 0
    (by rw [hxw, hxh, hw, hh]) (by rw [hw, hh]; rfl)
  refine ⟨"x,y,z\n" ++
    String.join ((pc.buffer.filter (fun p => !has_nan p)).map (point_row w.ub)), ?_⟩
  simp [main, h0, hopen, hcal, hxy, hstart, hcap, henq, hpop, hdepth, main_exit,
    TIMEOUT_IN_MS, hgen, write_point_cloud_eq]

/-! ## main: the claims -/

/-- C7. Abort without export: whatever the collaborators answer, when the
device open, the calibration or the camera start fails, or the capture wait
does not succeed (timeout or error), or `enqueue_capture` returns false, or
`pop_result` returns a null frame, `main` returns with both files as they
were and without having called `print_body_information`,
`generate_point_cloud` or `write_point_cloud`. -/
theorem main_failure_no_export {N : Nat} (w : World N) (files : Files)
    (hfail : w.device_open = false ∨ w.get_calibration = none ∨ w.start_cameras = false ∨
      w.get_capture ≠ k4a_wait_result_t.K4A_WAIT_RESULT_SUCCEEDED ∨
      w.enqueue_capture = false ∨ w.pop_result = none) :
    ∃ run, main w files = some run ∧ run.files = files ∧
      Call.print_body_information ∉ run.trace ∧
      Call.generate_point_cloud ∉ run.trace ∧
      Call.write_point_cloud ∉ run.trace := by
  by_cases h0 : w.installed_count = 0
  · refine ⟨_, main_no_device w files h0, ?_, ?_, ?_, ?_⟩ <;> simp
  cases hopen : w.device_open with
  | false => refine ⟨_, main_open_failure w files h0 hopen, ?_, ?_, ?_, ?_⟩ <;> simp
  | true =>
  cases hcal : w.get_calibration with
  | none => refine ⟨_, main_calibration_failure w files h0 hopen hcal, ?_, ?_, ?_, ?_⟩ <;> simp
  | some calibration =>
  cases hstart : w.start_cameras with
  | false =>
    refine ⟨_, main_start_failure w files h0 hopen calibration hcal hstart, ?_, ?_, ?_, ?_⟩ <;>
      simp
  | true =>
  by_cases hcap : w.get_capture = k4a_wait_result_t.K4A_WAIT_RESULT_SUCCEEDED
  swap
  · refine ⟨_, main_capture_failure w files h0 hopen calibration hcal hstart hcap,
      ?_, ?_, ?_, ?_⟩ <;> simp
  cases henq : w.enqueue_capture with
  | false =>
    refine ⟨_, main_enqueue_failure w files h0 hopen calibration hcal hstart hcap henq,
      ?_, ?_, ?_, ?_⟩ <;> simp
  | true =>
  cases hpop : w.pop_result with
  | none =>
    refine ⟨_, main_pop_failure w files h0 hopen calibration hcal hstart hcap henq hpop,
      ?_, ?_, ?_, ?_⟩ <;> simp
  | some body =>
    exfalso
    rcases hfail with h | h | h | h | h | h
    · rw [hopen] at h; exact Bool.noConfusion h
    · rw [hcal] at h; exact Option.noConfusion h
    · rw [hstart] at h; exact Bool.noConfusion h
    · exact h hcap
    · rw [henq] at h; exact Bool.noConfusion h
    · rw [hpop] at h; exact Option.noConfusion h

theorem main_failure_no_export_witness :
    (timeout_world.get_capture ≠ k4a_wait_result_t.K4A_WAIT_RESULT_SUCCEEDED) ∧
    ∃ run, main timeout_world old_files = some run ∧ run.files = old_files ∧
      Call.print_body_information ∉ run.trace ∧
      Call.generate_point_cloud ∉ run.trace ∧
      Call.write_point_cloud ∉ run.trace :=
  ⟨by decide, main_failure_no_export timeout_world old_files
    (Or.inr (Or.inr (Or.inr (Or.inl (by decide)))))⟩

/-- C8. Completion status of `main`, for collaborators whose depth image has
the resolution of the calibration: `main` returns, and the status is 0 exactly
when no device is installed or every step succeeds (device open, calibration,
camera start, capture, enqueue, non-null body frame, non-null depth image).
With no device nothing is opened and no file is touched; with status 0 and a
device both exports have run; and each of the seven failures gives status 1. -/
theorem main_status {N : Nat} (w : World N) (files : Files)
    (hdims : ∀ calibration depth_image, w.get_calibration = some calibration →
      w.get_depth_image = some depth_image →
      depth_image.width_pixels = calibration.resolution_width ∧
      depth_image.height_pixels = calibration.resolution_height) :
    ∃ run, main w files = some run ∧
      (run.returnCode = 0 ↔
        w.installed_count = 0 ∨
        (w.device_open = true ∧ w.get_calibration ≠ none ∧ w.start_cameras = true ∧
          w.get_capture = k4a_wait_result_t.K4A_WAIT_RESULT_SUCCEEDED ∧
          w.enqueue_capture = true ∧ w.pop_result ≠ none ∧ w.get_depth_image ≠ none)) ∧
      (w.installed_count = 0 →
        run.trace = [Call.printf "No K4A devices found\n"] ∧ run.files = files) ∧
      (w.installed_count ≠ 0 → run.returnCode = 0 →
        Call.print_body_information ∈ run.trace ∧ Call.write_point_cloud ∈ run.trace ∧
        run.files.joint_data ≠ none ∧ run.files.image_data ≠ none) ∧
      (w.installed_count ≠ 0 →
        (w.device_open = false ∨ w.get_calibration = none ∨ w.start_cameras = false ∨
          w.get_capture ≠ k4a_wait_result_t.K4A_WAIT_RESULT_SUCCEEDED ∨
          w.enqueue_capture = false ∨ w.pop_result = none ∨ w.get_depth_image = none) →
        run.returnCode = 1) := by
  by_cases h0 : w.installed_count = 0
  · refine ⟨_, main_no_device w files h0, ?_, ?_, ?_, ?_⟩ <;> simp [h0]
  cases hopen : w.device_open with
  | false => refine ⟨_, main_open_failure w files h0 hopen, ?_, ?_, ?_, ?_⟩ <;> simp [h0]
  | true =>
  cases hcal : w.get_calibration with
  | none =>
    refine ⟨_, main_calibration_failure w files h0 hopen hcal, ?_, ?_, ?_, ?_⟩ <;> simp [h0]
  | some calibration =>
  cases hstart : w.start_cameras with
  | false =>
    refine ⟨_, main_start_failure w files h0 hopen calibration hcal hstart, ?_, ?_, ?_, ?_⟩ <;>
      simp [h0]
  | true =>
  by_cases hcap : w.get_capture = k4a_wait_result_t.K4A_WAIT_RESULT_SUCCEEDED
  swap
  · refine ⟨_, main_capture_failure w files h0 hopen calibration hcal hstart hcap,
      ?_, ?_, ?_, ?_⟩ <;> simp [h0, hcap]
  cases henq : w.enqueue_capture with
  | false =>
    refine ⟨_, main_enqueue_failure w files h0 hopen calibration hcal hstart hcap henq,
      ?_, ?_, ?_, ?_⟩ <;> simp [h0]
  | true =>
  cases hpop : w.pop_result with
  | none =>
    refine ⟨_, main_pop_failure w files h0 hopen calibration hcal hstart hcap henq hpop,
      ?_, ?_, ?_, ?_⟩ <;> simp [h0]
  | some body =>
  cases hdepth : w.get_depth_image with
  | none =>
    refine ⟨_, main_depth_missing w files h0 hopen calibration hcal hstart hcap henq body hpop
      hdepth, ?_, ?_, ?_, ?_⟩ <;> simp [h0]
  | some depth_image =>
    obtain ⟨hw, hh⟩ := hdims calibration depth_image hcal hdepth
    obtain ⟨image_data, hmain⟩ := main_success w files h0 hopen calibration hcal hstart hcap
      henq body hpop depth_image hdepth hw hh
    refine ⟨_, hmain, ?_, ?_, ?_, ?_⟩ <;> simp [h0, hcap]

theorem main_status_witness :
    (∀ calibration depth_image, scenario_world.get_calibration = some calibration →
      scenario_world.get_depth_image = some depth_image →
      depth_image.width_pixels = calibration.resolution_width ∧
      depth_image.height_pixels = calibration.resolution_height) ∧
    ∃ run, main scenario_world old_files = some run ∧ run.returnCode = 0 := by
  have hdims : ∀ calibration depth_image, scenario_world.get_calibration = some calibration →
      scenario_world.get_depth_image = some depth_image →
      depth_image.width_pixels = calibration.resolution_width ∧
      depth_image.height_pixels = calibration.resolution_height := by
    intro calibration depth_image hc hd
    have hc' : scenario_calibration = calibration := Option.some.inj hc
    have hd' : scenario_depth_image = depth_image := Option.some.inj hd
    subst hc' hd'
    exact ⟨rfl, rfl⟩
  obtain ⟨run, hrun, hiff, _⟩ := main_status scenario_world old_files hdims
  exact ⟨hdims, run, hrun, hiff.2 (Or.inr ⟨rfl, fun h => Option.noConfusion h, rfl, rfl, rfl,
    fun h => Option.noConfusion h, fun h => Option.noConfusion h⟩)⟩

/-- C9, at the failing runs. When the device opens and the calibration is
obtained but a later step fails (camera start, capture, enqueue, null body
frame, missing depth image), `main` has created the ray table and the
point-cloud buffer, closes the device and returns 1, but releases no image
at all. -/
theorem main_failure_releases_nothing {N : Nat} (w : World N) (files : Files)
    (h0 : w.installed_count ≠ 0) (hopen : w.device_open = true)
    (calibration : k4a_calibration_t) (hcal : w.get_calibration = some calibration)
    (hfail : w.start_cameras = false ∨
      w.get_capture ≠ k4a_wait_result_t.K4A_WAIT_RESULT_SUCCEEDED ∨
      w.enqueue_capture = false ∨ w.pop_result = none ∨ w.get_depth_image = none) :
    ∃ run, main w files = some run ∧ run.returnCode = 1 ∧
      Call.k4a_image_create ImageVar.xy_table ∈ run.trace ∧
      Call.k4a_image_create ImageVar.point_cloud ∈ run.trace ∧
      (∀ img, Call.k4a_image_release img ∉ run.trace) ∧
      Call.k4a_device_close ∈ run.trace := by
  cases hstart : w.start_cameras with
  | false =>
    refine ⟨_, main_start_failure w files h0 hopen calibration hcal hstart,
      ?_, ?_, ?_, ?_, ?_⟩ <;> simp
  | true =>
  by_cases hcap : w.get_capture = k4a_wait_result_t.K4A_WAIT_RESULT_SUCCEEDED
  swap
  · refine ⟨_, main_capture_failure w files h0 hopen calibration hcal hstart hcap,
      ?_, ?_, ?_, ?_, ?_⟩ <;> simp
  cases henq : w.enqueue_capture with
  | false =>
    refine ⟨_, main_enqueue_failure w files h0 hopen calibration hcal hstart hcap henq,
      ?_, ?_, ?_, ?_, ?_⟩ <;> simp
  | true =>
  cases hpop : w.pop_result with
  | none =>
    refine ⟨_, main_pop_failure w files h0 hopen calibration hcal hstart hcap henq hpop,
      ?_, ?_, ?_, ?_, ?_⟩ <;> simp
  | some body =>
    have hdepth : w.get_depth_image = none := by
      rcases hfail with h | h | h | h | h
      · rw [hstart] at h; exact Bool.noConfusion h
      · exact absurd hcap h
      · rw [henq] at h; exact Bool.noConfusion h
      · rw [hpop] at h; exact Option.noConfusion h
      · exact h
    refine ⟨_, main_depth_missing w files h0 hopen calibration hcal hstart hcap henq body hpop
      hdepth, ?_, ?_, ?_, ?_, ?_⟩ <;> simp

theorem main_failure_releases_nothing_witness :
    (timeout_world.installed_count ≠ 0 ∧ timeout_world.device_open = true ∧
      timeout_world.get_calibration = some scenario_calibration ∧
      timeout_world.get_capture ≠ k4a_wait_result_t.K4A_WAIT_RESULT_SUCCEEDED) ∧
    ∃ run, main timeout_world old_files = some run ∧ run.returnCode = 1 ∧
      Call.k4a_image_create ImageVar.xy_table ∈ run.trace ∧
      Call.k4a_image_create ImageVar.point_cloud ∈ run.trace ∧
      (∀ img, Call.k4a_image_release img ∉ run.trace) ∧
      Call.k4a_device_close ∈ run.trace :=
  ⟨⟨by decide, rfl, rfl, by decide⟩,
    main_failure_releases_nothing timeout_world old_files (by decide) rfl scenario_calibration
      rfl (Or.inr (Or.inl (by decide)))⟩

/-- C10. Export is not atomic: when every step up to the body frame succeeds
and the capture carries no depth image, `main` returns 1 after
`print_body_information` has rewritten `joint.data`, the call coming before
the depth image is found missing; `generate_point_cloud` and
`write_point_cloud` are not called and `image.data` is as it was. -/
theorem main_joint_data_without_depth_image {N : Nat} (w : World N) (files : Files)
    (h0 : w.installed_count ≠ 0) (hopen : w.device_open = true)
    (calibration : k4a_calibration_t) (hcal : w.get_calibration = some calibration)
    (hstart : w.start_cameras = true)
    (hcap : w.get_capture = k4a_wait_result_t.K4A_WAIT_RESULT_SUCCEEDED)
    (henq : w.enqueue_capture = true)
    (body : k4abt_body_t N) (hpop : w.pop_result = some body)
    (hdepth : w.get_depth_image = none) :
    ∃ run, main w files = some run ∧ run.returnCode = 1 ∧
      run.files.joint_data = some (print_body_information w.ub body files.joint_data) ∧
      run.files.image_data = files.image_data ∧
      Call.generate_point_cloud ∉ run.trace ∧
      Call.write_point_cloud ∉ run.trace ∧
      ∃ before after, run.trace = before ++ [Call.print_body_information] ++ after ∧
        Call.printf "Failed to get depth image from capture\n" ∈ after ∧
        Call.printf "Failed to get depth image from capture\n" ∉ before := by
  refine ⟨_, main_depth_missing w files h0 hopen calibration hcal hstart hcap henq body hpop
    hdepth, rfl, rfl, rfl, by simp, by simp, ?_⟩
  refine ⟨[Call.k4a_device_open, Call.k4a_device_get_calibration,
        Call.k4a_image_create ImageVar.xy_table, Call.create_xy_table,
        Call.k4a_image_create ImageVar.point_cloud, Call.k4a_device_start_cameras,
        Call.k4a_device_get_capture 1000, Call.k4a_capture_get_depth_image,
        Call.tracker_create, Call.enqueue_capture, Call.pop_result, Call.tracker_shutdown,
        Call.get_body 0],
      [Call.printf "body detected\n",
        Call.printf "Failed to get depth image from capture\n", Call.k4a_device_close],
      rfl, by simp, by simp⟩

theorem main_joint_data_without_depth_image_witness :
    (no_depth_world.installed_count ≠ 0 ∧ no_depth_world.get_depth_image = none) ∧
    ∃ run, main no_depth_world old_files = some run ∧ run.returnCode = 1 ∧
      run.files.joint_data = some (print_body_information ub_x86 plain_body (some "old joints")) ∧
      run.files.image_data = some "old points" := by
  obtain ⟨run, hrun, hcode, hjoint, himage, _⟩ :=
    main_joint_data_without_depth_image no_depth_world old_files (by decide) rfl
      scenario_calibration rfl rfl rfl rfl plain_body rfl rfl
  exact ⟨⟨by decide, rfl⟩, run, hrun, hcode, hjoint, himage⟩

end K4ASample
